import Mathlib

/-!
# Verification of the OMG-devices message router (custom_components/omg/sensor.py)

Shallow embedding of the routing / decoding core of the repository:

* `Json` models the values produced by Python's `json.loads`;
  `json_loads` is an executable JSON parser modelling `json.loads` on
  strings (numbers are modelled as exact `PyNum` fractions; CPython parses
  decimal literals into binary64 floats, we idealise all float arithmetic
  as exact rational arithmetic, with `PyNum.toRat` giving the value).
* `PyErr` models the Python exceptions the embedded code can raise;
  fallible Python code becomes `Except PyErr`-valued functions.
* The two device classes `MakerFabsSoilSensorV3` (regex wire format) and
  `MakerFabsSoilSensorV3JSON` (nested-JSON wire format), their `match`
  static methods, constructors and `receive` methods are embedded
  line-by-line from the source, including the exception behaviour of
  `json.loads`, the `in` operator, subscription, `re.match` and `float`.
* `OMGRouterSensor.route_message` and the restore/replay loop of
  `async_added_to_hass` are embedded over an explicit router state
  (`known_devices` list and `recent_messages` association list with
  Python-dict insertion semantics).
-/

/-- Python exceptions that the embedded code can raise. -/
inductive PyErr where
  | jsonDecodeError
  | typeError
  | keyError
  | valueError
  | indexError
  | assertionError
  | attributeError
deriving DecidableEq, Repr

/-- Exact fraction representation for Python numbers (ints and floats).
CPython floats are binary64; the decoding formulas of this integration are
modelled with exact rational arithmetic.  ℚ itself is avoided in
executable positions because its normalising operations (via `Nat.gcd`)
do not reduce in the kernel; `PyNum` is an unnormalised fraction of
integers, with `PyNum.toRat` giving its value.  Every `PyNum` built by
the embedding has a positive denominator. -/
structure PyNum where
  num : ℤ
  den : ℤ
deriving DecidableEq, Repr

/-- The rational value of a `PyNum`. -/
def PyNum.toRat (x : PyNum) : ℚ := (x.num : ℚ) / (x.den : ℚ)

def PyNum.add (a b : PyNum) : PyNum := ⟨a.num * b.den + b.num * a.den, a.den * b.den⟩

def PyNum.sub (a b : PyNum) : PyNum := ⟨a.num * b.den - b.num * a.den, a.den * b.den⟩

def PyNum.mul (a b : PyNum) : PyNum := ⟨a.num * b.num, a.den * b.den⟩

def PyNum.div (a b : PyNum) : PyNum := ⟨a.num * b.den, a.den * b.num⟩

def PyNum.neg (a : PyNum) : PyNum := ⟨-a.num, a.den⟩

/-- `a < b` as Python compares numbers (valid for positive denominators). -/
def PyNum.ltb (a b : PyNum) : Bool := a.num * b.den < b.num * a.den

/-- Python `max(a, b)`: returns `b` only if `b > a` (first argument wins
ties). -/
def pyMax (a b : PyNum) : PyNum := if PyNum.ltb a b then b else a

/-- An integer as a `PyNum`. -/
def PyNum.ofInt (n : ℤ) : PyNum := ⟨n, 1⟩

def pow10 : Nat → ℤ
  | 0 => 1
  | k + 1 => 10 * pow10 k

/-- Values produced by `json.loads`.  Python distinguishes int and float;
both are modelled as exact `PyNum` fractions, which also models Python's
`1 == 1.0` numeric equality (via cross-multiplication). -/
inductive Json where
  | null : Json
  | bool : Bool → Json
  | num : PyNum → Json
  | str : String → Json
  | arr : List Json → Json
  | obj : List (String × Json) → Json

abbrev Chars := List Char

/-- JSON insignificant whitespace (as accepted by Python's json module). -/
def isJsonWs (c : Char) : Bool :=
  c = ' ' || c = '\t' || c = '\n' || c = '\r'

def skipWs : Chars → Chars
  | [] => []
  | c :: cs => if isJsonWs c then skipWs cs else c :: cs

def hexDigitVal (c : Char) : Option Nat :=
  if '0' ≤ c ∧ c ≤ '9' then some (c.toNat - 48)
  else if 'a' ≤ c ∧ c ≤ 'f' then some (c.toNat - 87)
  else if 'A' ≤ c ∧ c ≤ 'F' then some (c.toNat - 55)
  else none

/-- Parse the remainder of a JSON string literal (the opening quote is
already consumed).  Returns the decoded characters and the rest of the
input.  Control characters are rejected (Python json strict mode). -/
def parseJStr : Nat → Chars → Option (Chars × Chars)
  | 0, _ => none
  | _ + 1, [] => none
  | f + 1, c :: cs =>
    if c = '"' then some ([], cs)
    else if c = '\\' then
      match cs with
      | [] => none
      | e :: cs' =>
        let cont (ch : Char) (rest : Chars) : Option (Chars × Chars) :=
          match parseJStr f rest with
          | some (s, r) => some (ch :: s, r)
          | none => none
        if e = '"' then cont '"' cs'
        else if e = '\\' then cont '\\' cs'
        else if e = '/' then cont '/' cs'
        else if e = 'b' then cont (Char.ofNat 8) cs'
        else if e = 'f' then cont (Char.ofNat 12) cs'
        else if e = 'n' then cont '\n' cs'
        else if e = 'r' then cont '\r' cs'
        else if e = 't' then cont '\t' cs'
        else if e = 'u' then
          match cs' with
          | a :: b :: c2 :: d :: cs'' =>
            match hexDigitVal a, hexDigitVal b, hexDigitVal c2, hexDigitVal d with
            | some x, some y, some z, some w =>
              match parseJStr f cs'' with
              | some (s, r) => some (Char.ofNat (((x * 16 + y) * 16 + z) * 16 + w) :: s, r)
              | none => none
            | _, _, _, _ => none
          | _ => none
        else none
    else if c.toNat < 32 then none
    else
      match parseJStr f cs with
      | some (s, r) => some (c :: s, r)
      | none => none

def natOfDigits (ds : Chars) : Nat :=
  ds.foldl (fun n c => n * 10 + (c.toNat - 48)) 0

def spanDigits (cs : Chars) : Chars × Chars :=
  (cs.takeWhile Char.isDigit, cs.dropWhile Char.isDigit)

/-- Apply a base-10 exponent to an exact fraction. -/
def applyExp10 (mant : PyNum) (negExp : Bool) (e : Nat) : PyNum :=
  if negExp then ⟨mant.num, mant.den * pow10 e⟩
  else ⟨mant.num * pow10 e, mant.den⟩

/-- After the mantissa of a number: optional exponent part (`e`/`E`,
optional sign, digits), turning the mantissa into the final value. -/
def parseNumExp (mant : PyNum) (cs : Chars) : Option (PyNum × Chars) :=
  match cs with
  | 'e' :: r => parseNumExpDigits mant r
  | 'E' :: r => parseNumExpDigits mant r
  | _ => some (mant, cs)
where
  parseNumExpDigits (mant : PyNum) (r : Chars) : Option (PyNum × Chars) :=
    let (negExp, r1) : Bool × Chars := match r with
      | '+' :: r' => (false, r')
      | '-' :: r' => (true, r')
      | _ => (false, r)
    let (eds, r2) := spanDigits r1
    if eds = [] then none
    else some (applyExp10 mant negExp (natOfDigits eds), r2)

/-- Exact value of `ip . fp` with the given sign, as a fraction with a
positive power-of-ten denominator. -/
def decimalMantissa (neg : Bool) (ip fp : Chars) : PyNum :=
  let n : ℤ := (natOfDigits ip : ℤ) * pow10 fp.length + (natOfDigits fp : ℤ)
  ⟨if neg then -n else n, pow10 fp.length⟩

/-- Parse a JSON number (RFC grammar, as enforced by Python's json). -/
def parseJNum (cs : Chars) : Option (Json × Chars) :=
  let (neg, cs1) : Bool × Chars := match cs with
    | '-' :: r => (true, r)
    | _ => (false, cs)
  let (ip, r1) := spanDigits cs1
  if ip = [] then none
  else if ip.length > 1 ∧ ip.headD '0' = '0' then none
  else
    match r1 with
    | '.' :: r =>
      let (fp, r2) := spanDigits r
      if fp = [] then none
      else
        match parseNumExp (decimalMantissa neg ip fp) r2 with
        | some (v, r3) => some (Json.num v, r3)
        | none => none
    | _ =>
      match parseNumExp (decimalMantissa neg ip []) r1 with
      | some (v, r3) => some (Json.num v, r3)
      | none => none

/-- Python dict assignment semantics on an association list: overwrite in
place if the key exists (insertion order kept), else append. -/
def objSet : List (String × Json) → String → Json → List (String × Json)
  | [], k, v => [(k, v)]
  | (k0, v0) :: rest, k, v =>
    if k0 = k then (k0, v) :: rest else (k0, v0) :: objSet rest k v

mutual

/-- One JSON value, fuelled.  Mirror of Python `json.loads`'s grammar. -/
def parseJVal : Nat → Chars → Option (Json × Chars)
  | 0, _ => none
  | f + 1, cs =>
    match skipWs cs with
    | [] => none
    | '{' :: rest =>
      (match skipWs rest with
       | '}' :: r => some (Json.obj [], r)
       | r => parseJMembers f r [])
    | '[' :: rest =>
      (match skipWs rest with
       | ']' :: r => some (Json.arr [], r)
       | r => parseJItems f r [])
    | '"' :: rest =>
      (match parseJStr (rest.length + 1) rest with
       | some (s, r) => some (Json.str (String.mk s), r)
       | none => none)
    | 't' :: 'r' :: 'u' :: 'e' :: rest => some (Json.bool true, rest)
    | 'f' :: 'a' :: 'l' :: 's' :: 'e' :: rest => some (Json.bool false, rest)
    | 'n' :: 'u' :: 'l' :: 'l' :: rest => some (Json.null, rest)
    | other => parseJNum other

/-- Members of a JSON object after `{` (at least one member). -/
def parseJMembers : Nat → Chars → List (String × Json) → Option (Json × Chars)
  | 0, _, _ => none
  | f + 1, cs, acc =>
    match skipWs cs with
    | '"' :: rest =>
      (match parseJStr (rest.length + 1) rest with
       | none => none
       | some (k, r1) =>
         match skipWs r1 with
         | ':' :: r2 =>
           (match parseJVal f r2 with
            | none => none
            | some (v, r3) =>
              let acc' := objSet acc (String.mk k) v
              match skipWs r3 with
              | ',' :: r4 => parseJMembers f r4 acc'
              | '}' :: r4 => some (Json.obj acc', r4)
              | _ => none)
         | _ => none)
    | _ => none

/-- Items of a JSON array after `[` (at least one item). -/
def parseJItems : Nat → Chars → List Json → Option (Json × Chars)
  | 0, _, _ => none
  | f + 1, cs, acc =>
    match parseJVal f cs with
    | none => none
    | some (v, r1) =>
      match skipWs r1 with
      | ',' :: r2 => parseJItems f r2 (acc ++ [v])
      | ']' :: r2 => some (Json.arr (acc ++ [v]), r2)
      | _ => none

end

/-- `json.loads` on a string: parse one value, then only whitespace may
remain; any failure raises `json.decoder.JSONDecodeError`. -/
def json_loads (s : String) : Except PyErr Json :=
  match parseJVal (s.length + 1) s.data with
  | some (v, rest) =>
    match skipWs rest with
    | [] => .ok v
    | _ => .error .jsonDecodeError
  | none => .error .jsonDecodeError

/-! ## Python `float(str)` -/

def isPySpace (c : Char) : Bool :=
  c = ' ' || c = '\t' || c = '\n' || c = '\r' || c = '\x0b' || c = '\x0c'

/-- Python `float()` applied to a string: optional surrounding whitespace,
optional sign, then `digits`, `digits.digits?`, or `.digits`, with an
optional exponent; anything else raises `ValueError`.  (The `inf`/`nan`
spellings and underscore digit separators are outside the formats this
integration can receive and are not modelled.) -/
def pyFloatOfString (s : String) : Except PyErr PyNum :=
  let cs := (s.data.dropWhile isPySpace).reverse.dropWhile isPySpace |>.reverse
  let (neg, cs1) : Bool × Chars := match cs with
    | '+' :: r => (false, r)
    | '-' :: r => (true, r)
    | _ => (false, cs)
  let (ip, r1) := spanDigits cs1
  match r1 with
  | '.' :: r =>
    let (fp, r2) := spanDigits r
    if ip = [] ∧ fp = [] then .error .valueError
    else
      match parseNumExp (decimalMantissa neg ip fp) r2 with
      | some (v, []) => .ok v
      | _ => .error .valueError
  | _ =>
    if ip = [] then .error .valueError
    else
      match parseNumExp (decimalMantissa neg ip []) r1 with
      | some (v, []) => .ok v
      | _ => .error .valueError

/-! ## The regular expression of `MakerFabsSoilSensorV3`

`MATCHER = re.compile('ID(\d+) REPLY : SOIL INEDX:(\d+) H:(.+) T:(.+) ADC:(\d+) BAT:(\d+)')`

`re.match` anchors at the start of the string only; `.` does not match a
newline; `(.+)` is greedy with backtracking; a `(\d+)` that is followed by
a literal non-digit character can only match the maximal digit run. -/

/-- The six capture groups of `MakerFabsSoilSensorV3.MATCHER`. -/
structure GroupsA where
  g1 : String
  g2 : String
  g3 : String
  g4 : String
  g5 : String
  g6 : String
deriving DecidableEq, Repr

/-- Consume an exact literal. -/
def dropLit : Chars → Chars → Option Chars
  | [], cs => some cs
  | _ :: _, [] => none
  | l :: ls, c :: cs => if l = c then dropLit ls cs else none

/-- Tail `(\d+) BAT:(\d+)` (with arbitrary trailing text, since the
pattern is not end-anchored). -/
def matchADCTail (cs : Chars) : Option (Chars × Chars) :=
  let (d5, r1) := spanDigits cs
  if d5 = [] then none
  else
    match dropLit " BAT:".data r1 with
    | none => none
    | some r2 =>
      let (d6, _) := spanDigits r2
      if d6 = [] then none else some (d5, d6)

/-- Greedy `(.+) ADC:` followed by `matchADCTail`: try to extend group 4
as far as possible first, then backtrack. -/
def matchT (acc : Chars) (cs : Chars) : Option (Chars × Chars × Chars) :=
  match cs with
  | [] => attemptHere acc []
  | c :: rest =>
    if c = '\n' then attemptHere acc (c :: rest)
    else
      match matchT (acc ++ [c]) rest with
      | some r => some r
      | none => attemptHere acc (c :: rest)
where
  attemptHere (acc : Chars) (cs : Chars) : Option (Chars × Chars × Chars) :=
    if acc = [] then none
    else
      match dropLit " ADC:".data cs with
      | none => none
      | some r =>
        match matchADCTail r with
        | none => none
        | some (d5, d6) => some (acc, d5, d6)

/-- Greedy `(.+) T:` followed by `matchT`. -/
def matchH (acc : Chars) (cs : Chars) : Option (Chars × Chars × Chars × Chars) :=
  match cs with
  | [] => attemptHere acc []
  | c :: rest =>
    if c = '\n' then attemptHere acc (c :: rest)
    else
      match matchH (acc ++ [c]) rest with
      | some r => some r
      | none => attemptHere acc (c :: rest)
where
  attemptHere (acc : Chars) (cs : Chars) : Option (Chars × Chars × Chars × Chars) :=
    if acc = [] then none
    else
      match dropLit " T:".data cs with
      | none => none
      | some r =>
        match matchT [] r with
        | none => none
        | some (g4, d5, d6) => some (acc, g4, d5, d6)

/-- `MakerFabsSoilSensorV3.MATCHER.match(s)`: the anchored match of the
full pattern against the start of `s`, returning the capture groups. -/
def matcherA (cs : Chars) : Option GroupsA :=
  match dropLit "ID".data cs with
  | none => none
  | some r1 =>
    let (d1, r2) := spanDigits r1
    if d1 = [] then none
    else
      match dropLit " REPLY : SOIL INEDX:".data r2 with
      | none => none
      | some r3 =>
        let (d2, r4) := spanDigits r3
        if d2 = [] then none
        else
          match dropLit " H:".data r4 with
          | none => none
          | some r5 =>
            match matchH [] r5 with
            | none => none
            | some (g3, g4, d5, d6) =>
              some ⟨String.mk d1, String.mk d2, String.mk g3, String.mk g4,
                    String.mk d5, String.mk d6⟩

/-! ## Python operators on `Json` values -/

/-- Does `n` occur at the start of `h`? -/
def leadsWith : Chars → Chars → Bool
  | [], _ => true
  | _ :: _, [] => false
  | a :: as_, b :: bs => a = b && leadsWith as_ bs

/-- Python substring test `n in h` on strings. -/
def hasSub (n : Chars) : Chars → Bool
  | [] => n = []
  | c :: rest => leadsWith n (c :: rest) || hasSub n rest

def objHasKey : List (String × Json) → String → Bool
  | [], _ => false
  | (k0, _) :: rest, k => k0 = k || objHasKey rest k

/-- String elements of a list that equal `k` (Python `==` between a `str`
and a value of any other type is `False`, never an error). -/
def arrHasStr : List Json → String → Bool
  | [], _ => false
  | Json.str s :: rest, k => s = k || arrHasStr rest k
  | _ :: rest, k => arrHasStr rest k

/-- Python `k in j`: key test on a dict, substring test on a str,
membership on a list; `TypeError` on any non-container. -/
def pyContains (k : String) (j : Json) : Except PyErr Bool :=
  match j with
  | .obj kvs => .ok (objHasKey kvs k)
  | .str s => .ok (hasSub k.data s.data)
  | .arr xs => .ok (arrHasStr xs k)
  | _ => .error .typeError

def objGet : List (String × Json) → String → Option Json
  | [], _ => none
  | (k0, v) :: rest, k => if k0 = k then some v else objGet rest k

/-- Python `j[k]` for a string key `k`: dict lookup (`KeyError` if the key
is absent); a `TypeError` on a str or list (string/list indices must be
integers) and on any non-subscriptable value. -/
def py_getitem (j : Json) (k : String) : Except PyErr Json :=
  match j with
  | .obj kvs =>
    match objGet kvs k with
    | some v => .ok v
    | none => .error .keyError
  | _ => .error .typeError

/-- `json.loads` applied to an already-parsed value: only `str` input is
accepted (`bytes`/`bytearray` cannot occur here); anything else raises
`TypeError`. -/
def json_loads_val (v : Json) : Except PyErr Json :=
  match v with
  | .str s => json_loads s
  | _ => .error .typeError

/-- Python `float()` applied to a `Json` value. -/
def pyFloat (v : Json) : Except PyErr PyNum :=
  match v with
  | .num q => .ok q
  | .str s => pyFloatOfString s
  | .bool b => .ok (PyNum.ofInt (if b then 1 else 0))
  | _ => .error .typeError

/-- Python `==` between two `json.loads` values, fuelled by structural
depth (any value this embedding ever compares is far shallower than the
fuel).  Dict comparison is key-based and order-insensitive, as in Python. -/
def pyJsonEqF : Nat → Json → Json → Bool
  | 0, _, _ => false
  | f + 1, a, b =>
    match a, b with
    | .null, .null => true
    | .bool x, .bool y => x == y
    | .num x, .num y => x.num * y.den == y.num * x.den
    | .str x, .str y => x == y
    | .arr xs, .arr ys =>
      xs.length == ys.length && ((xs.zip ys).all fun p => pyJsonEqF f p.1 p.2)
    | .obj xs, .obj ys =>
      xs.length == ys.length &&
        (xs.all fun kv =>
          match objGet ys kv.1 with
          | some v => pyJsonEqF f kv.2 v
          | none => false)
    | _, _ => false

def pyJsonEq (a b : Json) : Bool := pyJsonEqF 1000000 a b

/-! ## Device classes: `match` static methods

Both `match` methods wrap their body in
`try: ... except json.decoder.JSONDecodeError: return None`.
Only that exception is caught: a `TypeError` raised by `in`,
subscription, `json.loads` on a non-string, or `re.match` on a
non-string propagates to the caller.

A Python `Optional` return is modelled as `Option Json`: returning the
value `None` (e.g. a JSON `null` stored under `"node_id"`) and reaching
a `return None` statement are the same observable result. -/

/-- `try: ... except json.decoder.JSONDecodeError: return None`. -/
def tryJsonDecode (r : Except PyErr (Option Json)) : Except PyErr (Option Json) :=
  match r with
  | .error .jsonDecodeError => .ok none
  | x => x

/-- A returned Python object as an `Optional` result: `None` means no
match. -/
def pyOptional (v : Json) : Option Json :=
  match v with
  | .null => none
  | _ => some v

/-- `re.match` of `MakerFabsSoilSensorV3.MATCHER` against a Python value:
`TypeError` unless it is a string. -/
def pyReMatch (v : Json) : Except PyErr (Option GroupsA) :=
  match v with
  | .str s => .ok (matcherA s.data)
  | _ => .error .typeError

def MakerFabsSoilSensorV3JSON_matchBody (message : String) : Except PyErr (Option Json) :=
  match json_loads message with
  | .error e => .error e
  | .ok j =>
    match pyContains "message" j with
    | .error e => .error e
    | .ok false => .ok none
    | .ok true =>
      match py_getitem j "message" with
      | .error e => .error e
      | .ok mv =>
        match json_loads_val mv with
        | .error e => .error e
        | .ok j2 =>
          match pyContains "node_id" j2 with
          | .error e => .error e
          | .ok false => .ok none
          | .ok true =>
            match py_getitem j2 "node_id" with
            | .error e => .error e
            | .ok nid => .ok (pyOptional nid)

/-- `MakerFabsSoilSensorV3JSON.match`. -/
def MakerFabsSoilSensorV3JSON_match (message : String) : Except PyErr (Option Json) :=
  tryJsonDecode (MakerFabsSoilSensorV3JSON_matchBody message)

def MakerFabsSoilSensorV3_matchBody (message : String) : Except PyErr (Option Json) :=
  match json_loads message with
  | .error e => .error e
  | .ok j =>
    match pyContains "message" j with
    | .error e => .error e
    | .ok false => .ok none
    | .ok true =>
      match py_getitem j "message" with
      | .error e => .error e
      | .ok mv =>
        match pyReMatch mv with
        | .error e => .error e
        | .ok none => .ok none
        | .ok (some gs) => .ok (some (Json.str gs.g1))

/-- `MakerFabsSoilSensorV3.match`. -/
def MakerFabsSoilSensorV3_match (message : String) : Except PyErr (Option Json) :=
  tryJsonDecode (MakerFabsSoilSensorV3_matchBody message)

/-! ## Devices, sensors and `receive`

An `OMGDeviceSensor` entity is reduced to its mutable measurement state
`_attr_native_value` (unset until the first live decode).  The static
entity metadata (key, name, unit, device class, precision) is fixed per
channel in the source and plays no role in the claims' dataflow. -/

structure OMGDeviceSensor where
  native_value : Option PyNum
deriving DecidableEq, Repr

/-- `MakerFabsSoilSensorV3` instance state: its extracted id and its five
lazily-created channel entities. -/
structure DeviceV3 where
  _id : Json
  humidity_sensor : Option OMGDeviceSensor
  temperature_sensor : Option OMGDeviceSensor
  adc_sensor : Option OMGDeviceSensor
  battery_sensor : Option OMGDeviceSensor
  moisture_sensor : Option OMGDeviceSensor

/-- `MakerFabsSoilSensorV3JSON` instance state: its extracted id and its
four lazily-created channel entities. -/
structure DeviceV3JSON where
  _id : Json
  humidity_sensor : Option OMGDeviceSensor
  temperature_sensor : Option OMGDeviceSensor
  battery_sensor : Option OMGDeviceSensor
  moisture_sensor : Option OMGDeviceSensor

/-- `match.group(i)` of a (possibly `None`) match object: attribute
access on `None` raises `AttributeError`; an out-of-range group index
raises `IndexError` (never reached: only groups 1–6 are used). -/
def pyGroup (m : Option GroupsA) (i : Nat) : Except PyErr String :=
  match m with
  | none => .error .attributeError
  | some gs =>
    match i with
    | 1 => .ok gs.g1
    | 2 => .ok gs.g2
    | 3 => .ok gs.g3
    | 4 => .ok gs.g4
    | 5 => .ok gs.g5
    | 6 => .ok gs.g6
    | _ => .error .indexError

/-- The `parse_as_float` closure of `MakerFabsSoilSensorV3.receive`:
`float(match.group(group_index))`. -/
def parse_as_float_A (m : Option GroupsA) (i : Nat) : Except PyErr PyNum :=
  match pyGroup m i with
  | .error e => .error e
  | .ok s => pyFloatOfString s

/-- The `parse_as_battery` closure: `float(match.group(6)) * 3.3 / 1024`
(the `group_index` argument is ignored by the source). -/
def parse_as_battery_val (m : Option GroupsA) : Except PyErr PyNum :=
  match pyGroup m 6 with
  | .error e => .error e
  | .ok s =>
    match pyFloatOfString s with
    | .error e => .error e
    | .ok q => .ok ((q.mul ⟨33, 10⟩).div ⟨1024, 1⟩)

/-- The straight-line arithmetic of the `parse_moisture` closure, given
the two parsed group values: `battery_level = g6 * 3.3 / 1024`;
`sensor_value = g5 - (45 - 2.0) * battery_level`;
`sensor_value = max(sensor_value, 500)`;
value `= 100 - ((sensor_value - 500) / 5)`. -/
def moistureFormula (q5 q6 : PyNum) : PyNum :=
  let battery_level := (q6.mul ⟨33, 10⟩).div ⟨1024, 1⟩
  let battery_adjustment_factor : PyNum := ⟨45, 1⟩
  let sensor_value := q5.sub ((battery_adjustment_factor.sub ⟨2, 1⟩).mul battery_level)
  let sensor_value2 := pyMax sensor_value ⟨500, 1⟩
  (PyNum.ofInt 100).sub ((sensor_value2.sub ⟨500, 1⟩).div ⟨5, 1⟩)

/-- The `parse_moisture` closure (the `group_index` argument is ignored
by the source; groups 6 and 5 are read directly). -/
def parse_moisture_val (m : Option GroupsA) : Except PyErr PyNum :=
  match pyGroup m 6 with
  | .error e => .error e
  | .ok s6 =>
    match pyFloatOfString s6 with
    | .error e => .error e
    | .ok q6 =>
      match pyGroup m 5 with
      | .error e => .error e
      | .ok s5 =>
        match pyFloatOfString s5 with
        | .error e => .error e
        | .ok q5 => .ok (moistureFormula q5 q6)

/-- `json.loads(message)` followed by
`MakerFabsSoilSensorV3.MATCHER.match(j['message'])`
(lines 208–209 of the source `receive`). -/
def messageGroups (msg : String) : Except PyErr (Option GroupsA) :=
  match json_loads msg with
  | .error e => .error e
  | .ok j =>
    match py_getitem j "message" with
    | .error e => .error e
    | .ok mv => pyReMatch mv

/-- A fresh channel entity: no value assigned yet. -/
def freshSensor : OMGDeviceSensor := { native_value := none }

/-- `MakerFabsSoilSensorV3.receive`.  The source interleaves
create-if-absent steps (unconditional) with `on_receive` assignments
(guarded by `if not restore_only`); the net state after the call is:
all five channels exist, and, on a live pass only, carry the freshly
decoded values. -/
def DeviceV3.receive (d : DeviceV3) (message : String) ( restore_only : Bool) :
    Except PyErr DeviceV3 :=
  match messageGroups message with
  | .error e => .error e
  | .ok m =>
    let hs := d.humidity_sensor.getD freshSensor
    let ts := d.temperature_sensor.getD freshSensor
    let avs := d.adc_sensor.getD freshSensor
    let bs := d.battery_sensor.getD freshSensor
    let ms := d.moisture_sensor.getD freshSensor
    if restore_only then
      .ok { _id := d._id, humidity_sensor := some hs, temperature_sensor := some ts,
            adc_sensor := some avs, battery_sensor := some bs, moisture_sensor := some ms }
    else
      match parse_as_float_A m 3 with
      | .error e => .error e
      | .ok hv =>
        match parse_as_float_A m 4 with
        | .error e => .error e
        | .ok tv =>
          match parse_as_float_A m 5 with
          | .error e => .error e
          | .ok av =>
            match parse_as_battery_val m with
            | .error e => .error e
            | .ok bv =>
              match parse_moisture_val m with
              | .error e => .error e
              | .ok mo =>
                .ok { _id := d._id,
                      humidity_sensor := some { native_value := some hv },
                      temperature_sensor := some { native_value := some tv },
                      adc_sensor := some { native_value := some av },
                      battery_sensor := some { native_value := some bv },
                      moisture_sensor := some { native_value := some mo } }

/-- `json.loads(message)` then `json.loads(j['message'])` (lines 101–102
of the source `receive`). -/
def messageInnerJson (msg : String) : Except PyErr Json :=
  match json_loads msg with
  | .error e => .error e
  | .ok j =>
    match py_getitem j "message" with
    | .error e => .error e
    | .ok mv => json_loads_val mv

/-- The `parse_as_float` closure of `MakerFabsSoilSensorV3JSON.receive`:
`float(json[key])`. -/
def parse_as_float_J (j : Json) (key : String) : Except PyErr PyNum :=
  match py_getitem j key with
  | .error e => .error e
  | .ok v => pyFloat v

/-- `MakerFabsSoilSensorV3JSON.receive`: create the four channels if
absent, then (live pass only) assign `hum`, `temp`, `bat`, `adc` as raw
passthrough floats. -/
def DeviceV3JSON.receive (d : DeviceV3JSON) (message : String) ( restore_only : Bool) :
    Except PyErr DeviceV3JSON :=
  match messageInnerJson message with
  | .error e => .error e
  | .ok j2 =>
    let hs := d.humidity_sensor.getD freshSensor
    let ts := d.temperature_sensor.getD freshSensor
    let bs := d.battery_sensor.getD freshSensor
    let ms := d.moisture_sensor.getD freshSensor
    if restore_only then
      .ok { _id := d._id, humidity_sensor := some hs, temperature_sensor := some ts,
            battery_sensor := some bs, moisture_sensor := some ms }
    else
      match parse_as_float_J j2 "hum" with
      | .error e => .error e
      | .ok hv =>
        match parse_as_float_J j2 "temp" with
        | .error e => .error e
        | .ok tv =>
          match parse_as_float_J j2 "bat" with
          | .error e => .error e
          | .ok bv =>
            match parse_as_float_J j2 "adc" with
            | .error e => .error e
            | .ok mo =>
              .ok { _id := d._id,
                    humidity_sensor := some { native_value := some hv },
                    temperature_sensor := some { native_value := some tv },
                    battery_sensor := some { native_value := some bv },
                    moisture_sensor := some { native_value := some mo } }

/-! ## The router -/

/-- A discovered `LoRaDevice` held in `known_devices` (the concrete class
of the Python object). -/
inductive Device where
  | v3 : DeviceV3 → Device
  | v3json : DeviceV3JSON → Device

/-- The two `LoRaDevice` subclasses defined by the source. -/
inductive DeviceClass where
  | v3
  | v3json
deriving DecidableEq, Repr

/-- `type(device)` of a held device. -/
def Device.cls : Device → DeviceClass
  | .v3 _ => .v3
  | .v3json _ => .v3json

/-- `device.id` (the `_id` set by the constructor). -/
def Device.id : Device → Json
  | .v3 d => d._id
  | .v3json d => d._id

/-- `type(self).__name__`. -/
def DeviceClass.name : DeviceClass → String
  | .v3 => "MakerFabsSoilSensorV3"
  | .v3json => "MakerFabsSoilSensorV3JSON"

/-- Python `str + obj`: string concatenation, raising `TypeError` unless
the right operand is a `str`. -/
def pyStrAdd (a : String) (b : Json) : Except PyErr String :=
  match b with
  | .str s => .ok (a ++ s)
  | _ => .error .typeError

/-- `LoRaDevice.full_id`: `type(self).__name__ + "_" + self.id`. -/
def Device.full_id (d : Device) : Except PyErr String :=
  pyStrAdd (d.cls.name ++ "_") d.id

/-- `klass.match(message)` dispatched on the class. -/
def DeviceClass.matchFn : DeviceClass → String → Except PyErr (Option Json)
  | .v3, msg => MakerFabsSoilSensorV3_match msg
  | .v3json, msg => MakerFabsSoilSensorV3JSON_match msg

/-- `MakerFabsSoilSensorV3.__init__`: re-match the message, `assert` it
matched, store the id, leave every channel entity unset. -/
def mkMakerFabsSoilSensorV3 (message : String) : Except PyErr DeviceV3 :=
  match MakerFabsSoilSensorV3_match message with
  | .error e => .error e
  | .ok none => .error .assertionError
  | .ok (some m) => .ok ⟨m, none, none, none, none, none⟩

/-- `MakerFabsSoilSensorV3JSON.__init__`. -/
def mkMakerFabsSoilSensorV3JSON (message : String) : Except PyErr DeviceV3JSON :=
  match MakerFabsSoilSensorV3JSON_match message with
  | .error e => .error e
  | .ok none => .error .assertionError
  | .ok (some m) => .ok ⟨m, none, none, none, none⟩

/-- `klass(message_payload, ...)` dispatched on the class. -/
def DeviceClass.construct : DeviceClass → String → Except PyErr Device
  | .v3, msg =>
    match mkMakerFabsSoilSensorV3 msg with
    | .error e => .error e
    | .ok d => .ok (.v3 d)
  | .v3json, msg =>
    match mkMakerFabsSoilSensorV3JSON msg with
    | .error e => .error e
    | .ok d => .ok (.v3json d)

/-- `matching_device.receive(message_payload, restore_only)` dispatched
on the class of the device. -/
def Device.receive (d : Device) (msg : String) (ro : Bool) : Except PyErr Device :=
  match d with
  | .v3 dv =>
    match DeviceV3.receive dv msg ro with
    | .error e => .error e
    | .ok dv' => .ok (.v3 dv')
  | .v3json dv =>
    match DeviceV3JSON.receive dv msg ro with
    | .error e => .error e
    | .ok dv' => .ok (.v3json dv')

/-- Router state: the devices discovered so far (insertion order) and the
`recent_messages` dict (`full_id → last raw payload`), as an association
list with Python-dict insertion semantics. -/
structure OMGRouterSensor where
  known_devices : List Device
  recent_messages : List (String × String)

/-- `self.all_devices_classes = [MakerFabsSoilSensorV3]` (line 359 of the
source; `MakerFabsSoilSensorV3JSON` is defined but never registered). -/
def all_devices_classes : List DeviceClass := [DeviceClass.v3]

/-- Python dict assignment `d[k] = v`: overwrite in place if the key
exists (insertion order kept), else append. -/
def dictSet : List (String × String) → String → String → List (String × String)
  | [], k, v => [(k, v)]
  | (k0, v0) :: rest, k, v =>
    if k0 = k then (k0, v) :: rest else (k0, v0) :: dictSet rest k v

/-- Python dict lookup `d[k]`. -/
def dictGet : List (String × String) → String → Option String
  | [], _ => none
  | (k0, v0) :: rest, k => if k0 = k then some v0 else dictGet rest k

/-- `m is not None and m == device.id` (Python `==` semantics). -/
def matchHit (m : Option Json) (d : Device) : Bool :=
  match m with
  | none => false
  | some mv => pyJsonEq mv d.id

/-- The first pass of `route_message`: walk `known_devices` in discovery
order, re-match each device's class against the payload, and stop at the
first device whose re-matched id equals its own id.  Returns the list
split around the matching device (so the caller can put back the updated
device at the same position). -/
def findKnownSplit : List Device → String → Except PyErr (Option (List Device × Device × List Device))
  | [], _ => .ok none
  | d :: rest, msg =>
    match DeviceClass.matchFn d.cls msg with
    | .error e => .error e
    | .ok m =>
      if matchHit m d then .ok (some ([], d, rest))
      else
        match findKnownSplit rest msg with
        | .error e => .error e
        | .ok none => .ok none
        | .ok (some (pre, x, post)) => .ok (some (d :: pre, x, post))

/-- The second pass of `route_message`: walk `all_devices_classes` in
fixed order and stop at the first class whose `match` returns a
non-`None` id. -/
def findNew : List DeviceClass → String → Except PyErr (Option DeviceClass)
  | [], _ => .ok none
  | k :: rest, msg =>
    match DeviceClass.matchFn k msg with
    | .error e => .error e
    | .ok none => findNew rest msg
    | .ok (some _) => .ok (some k)

/-- `OMGRouterSensor.route_message`.  On a match (existing or new
device): record the payload under the device's `full_id` in
`recent_messages`, then `receive` it.  On no match: log and return the
state unchanged.  An uncaught Python exception is modelled as an
`Except.error` result. -/
def route_message (r : OMGRouterSensor) (message_payload : String) ( restore_only : Bool := false) :
    Except PyErr OMGRouterSensor :=
  match findKnownSplit r.known_devices message_payload with
  | .error e => .error e
  | .ok (some (pre, dev, post)) =>
    (match Device.full_id dev with
     | .error e => .error e
     | .ok fid =>
       match Device.receive dev message_payload restore_only with
       | .error e => .error e
       | .ok dev' =>
         .ok { known_devices := pre ++ dev' :: post,
               recent_messages := dictSet r.recent_messages fid message_payload })
  | .ok none =>
    match findNew all_devices_classes message_payload with
    | .error e => .error e
    | .ok none => .ok r
    | .ok (some k) =>
      match DeviceClass.construct k message_payload with
      | .error e => .error e
      | .ok dev =>
        match Device.full_id dev with
        | .error e => .error e
        | .ok fid =>
          match Device.receive dev message_payload restore_only with
          | .error e => .error e
          | .ok dev' =>
            .ok { known_devices := r.known_devices ++ [dev'],
                  recent_messages := dictSet r.recent_messages fid message_payload }

/-- The restore loop of `async_added_to_hass`: iterate the keys of the
restored `recent_messages` dict (in insertion order) and route each
stored payload with `restore_only=True`. -/
def replayKeys : List String → OMGRouterSensor → Except PyErr OMGRouterSensor
  | [], r => .ok r
  | k :: rest, r =>
    match dictGet r.recent_messages k with
    | none => .error .keyError
    | some p =>
      match route_message r p true with
      | .error e => .error e
      | .ok r' => replayKeys rest r'

/-- Startup restore: install the restored snapshot as `recent_messages`
on a fresh router (fresh `known_devices`), then replay every stored
payload with `restore_only=True`. -/
def replaySnapshot (snap : List (String × String)) : Except PyErr OMGRouterSensor :=
  replayKeys (snap.map Prod.fst) { known_devices := [], recent_messages := snap }

/-- `full_id` of every known device, in discovery order. -/
def deviceFullIds : List Device → Except PyErr (List String)
  | [] => .ok []
  | d :: ds =>
    match Device.full_id d with
    | .error e => .error e
    | .ok f =>
      match deviceFullIds ds with
      | .error e => .error e
      | .ok fs => .ok (f :: fs)

/-! ## Arithmetic bridge: `PyNum` computations vs exact rational values -/

theorem pow10_pos (k : Nat) : 0 < pow10 k := by
  induction k with
  | zero => simp [pow10]
  | succ n ih => unfold pow10; positivity

theorem PyNum.toRat_mul (a b : PyNum) : (a.mul b).toRat = a.toRat * b.toRat := by
  simp only [PyNum.toRat, PyNum.mul]
  push_cast
  rw [div_mul_div_comm]

theorem PyNum.toRat_div (a b : PyNum) : (a.div b).toRat = a.toRat / b.toRat := by
  simp only [PyNum.toRat, PyNum.div]
  push_cast
  rw [div_div_eq_mul_div, div_mul_eq_mul_div, div_div]

theorem PyNum.toRat_sub (a b : PyNum) (ha : (a.den : ℚ) ≠ 0) (hb : (b.den : ℚ) ≠ 0) :
    (a.sub b).toRat = a.toRat - b.toRat := by
  simp only [PyNum.toRat, PyNum.sub]
  push_cast
  rw [div_sub_div _ _ ha hb]
  ring_nf

theorem PyNum.toRat_add (a b : PyNum) (ha : (a.den : ℚ) ≠ 0) (hb : (b.den : ℚ) ≠ 0) :
    (a.add b).toRat = a.toRat + b.toRat := by
  simp only [PyNum.toRat, PyNum.add]
  push_cast
  rw [div_add_div _ _ ha hb]
  ring_nf

theorem PyNum.ltb_iff (a b : PyNum) (ha : 0 < a.den) (hb : 0 < b.den) :
    a.ltb b = true ↔ a.toRat < b.toRat := by
  simp only [PyNum.ltb, PyNum.toRat, decide_eq_true_eq]
  rw [div_lt_div_iff₀ (by exact_mod_cast ha) (by exact_mod_cast hb)]
  constructor
  · intro h; exact_mod_cast h
  · intro h; exact_mod_cast h

theorem toRat_pyMax (a b : PyNum) (ha : 0 < a.den) (hb : 0 < b.den) :
    (pyMax a b).toRat = max a.toRat b.toRat := by
  unfold pyMax
  by_cases h : a.ltb b = true
  · rw [if_pos h, max_eq_right (le_of_lt ((PyNum.ltb_iff a b ha hb).mp h))]
  · rw [if_neg h, max_eq_left]
    have := (PyNum.ltb_iff a b ha hb).not.mp h
    exact le_of_not_lt this

theorem applyExp10_denPos (m : PyNum) (negExp : Bool) (e : Nat) (hm : 0 < m.den) :
    0 < (applyExp10 m negExp e).den := by
  unfold applyExp10
  split
  · exact mul_pos hm (pow10_pos e)
  · exact hm

theorem parseNumExpDigits_denPos (m : PyNum) (r : Chars) (v : PyNum) (rest : Chars)
    (h : parseNumExp.parseNumExpDigits m r = some (v, rest)) (hm : 0 < m.den) : 0 < v.den := by
  unfold parseNumExp.parseNumExpDigits at h
  repeat' split at h
  all_goals first
    | (simp only [Option.some.injEq, Prod.mk.injEq] at h
       rw [← h.1]
       exact applyExp10_denPos _ _ _ hm)
    | exact absurd h (by simp)

theorem parseNumExp_denPos (m : PyNum) (cs : Chars) (v : PyNum) (rest : Chars)
    (h : parseNumExp m cs = some (v, rest)) (hm : 0 < m.den) : 0 < v.den := by
  unfold parseNumExp at h
  split at h
  · exact parseNumExpDigits_denPos _ _ _ _ h hm
  · exact parseNumExpDigits_denPos _ _ _ _ h hm
  · simp only [Option.some.injEq, Prod.mk.injEq] at h
    rw [← h.1]
    exact hm

theorem decimalMantissa_denPos (neg : Bool) (ip fp : Chars) :
    0 < (decimalMantissa neg ip fp).den := by
  unfold decimalMantissa
  exact pow10_pos _

theorem pyFloatOfString_denPos (s : String) (q : PyNum)
    (h : pyFloatOfString s = .ok q) : 0 < q.den := by
  simp only [pyFloatOfString] at h
  repeat' split at h
  all_goals first
    | (simp only [Except.ok.injEq] at h
       subst h
       exact parseNumExp_denPos _ _ _ _ (by assumption) (decimalMantissa_denPos _ _ _))
    | exact absurd h (by simp)

theorem pyMax_denPos (a b : PyNum) (ha : 0 < a.den) (hb : 0 < b.den) :
    0 < (pyMax a b).den := by
  unfold pyMax
  split
  · exact hb
  · exact ha

/-- Exact rational value of the moisture calibration, for operands with
positive denominators: the claimed closed formula
`100 − (max(g5 − (45 − 2)·(g6·3.3/1024), 500) − 500) / 5`. -/
theorem moistureFormula_toRat (q5 q6 : PyNum) (h5 : 0 < q5.den) (h6 : 0 < q6.den) :
    (moistureFormula q5 q6).toRat =
      100 - ((max (q5.toRat - (45 - 2) * (q6.toRat * (33 / 10) / 1024)) 500) - 500) / 5 := by
  have h5' : (q5.den : ℚ) ≠ 0 := by exact_mod_cast h5.ne'
  have h6' : (q6.den : ℚ) ≠ 0 := by exact_mod_cast h6.ne'
  have hunfold : moistureFormula q5 q6 =
      (PyNum.ofInt 100).sub
        (((pyMax (q5.sub (((⟨45, 1⟩ : PyNum).sub ⟨2, 1⟩).mul ((q6.mul ⟨33, 10⟩).div ⟨1024, 1⟩)))
            ⟨500, 1⟩).sub ⟨500, 1⟩).div ⟨5, 1⟩) := rfl
  rw [hunfold]
  set sv := q5.sub (((⟨45, 1⟩ : PyNum).sub ⟨2, 1⟩).mul ((q6.mul ⟨33, 10⟩).div ⟨1024, 1⟩)) with hsvdef
  have hsvden : sv.den = q5.den * (1 * 1 * (q6.den * 10 * 1024)) := rfl
  have hsvpos : 0 < sv.den := by rw [hsvden]; positivity
  have hsvpos' : (sv.den : ℚ) ≠ 0 := by exact_mod_cast hsvpos.ne'
  have hsvval : sv.toRat = q5.toRat - (45 - 2) * (q6.toRat * (33 / 10) / 1024) := by
    rw [hsvdef]
    simp only [PyNum.sub, PyNum.mul, PyNum.div, PyNum.toRat]
    push_cast
    field_simp
    ring
  unfold pyMax
  by_cases hlt : sv.ltb ⟨500, 1⟩ = true
  · rw [if_pos hlt]
    have hmax : max (q5.toRat - (45 - 2) * (q6.toRat * (33 / 10) / 1024)) 500 = 500 := by
      apply max_eq_right
      apply le_of_lt
      have hv := (PyNum.ltb_iff _ _ hsvpos (by norm_num)).mp hlt
      rw [hsvval] at hv
      have h500 : ((⟨500, 1⟩ : PyNum) : PyNum).toRat = 500 := by norm_num [PyNum.toRat]
      rw [h500] at hv
      exact hv
    rw [hmax]
    norm_num [PyNum.toRat, PyNum.sub, PyNum.div, PyNum.ofInt]
  · rw [if_neg hlt]
    have hmax : max (q5.toRat - (45 - 2) * (q6.toRat * (33 / 10) / 1024)) 500
        = q5.toRat - (45 - 2) * (q6.toRat * (33 / 10) / 1024) := by
      apply max_eq_left
      have hv := (PyNum.ltb_iff sv ⟨500, 1⟩ hsvpos (by norm_num)).not.mp hlt
      rw [hsvval] at hv
      have h500 : ((⟨500, 1⟩ : PyNum) : PyNum).toRat = 500 := by norm_num [PyNum.toRat]
      rw [h500] at hv
      exact le_of_not_lt hv
    rw [hmax, ← hsvval]
    simp only [PyNum.sub, PyNum.div, PyNum.ofInt, PyNum.toRat]
    push_cast
    field_simp
    ring

/-- Exact rational value of the battery conversion `g6 * 3.3 / 1024`. -/
theorem battery_toRat (q : PyNum) :
    ((q.mul ⟨33, 10⟩).div ⟨1024, 1⟩).toRat = q.toRat * (33 / 10) / 1024 := by
  rw [PyNum.toRat_div, PyNum.toRat_mul]
  norm_num [PyNum.toRat]

/-! ## Inversion lemmas for `receive` -/

theorem DeviceV3.receive_true_eq_v3 (d : DeviceV3) (msg : String) (d' : DeviceV3)
    (h : DeviceV3.receive d msg true = .ok d') :
    ∃ m, messageGroups msg = .ok m ∧
      d' = { _id := d._id,
             humidity_sensor := some (d.humidity_sensor.getD freshSensor),
             temperature_sensor := some (d.temperature_sensor.getD freshSensor),
             adc_sensor := some (d.adc_sensor.getD freshSensor),
             battery_sensor := some (d.battery_sensor.getD freshSensor),
             moisture_sensor := some (d.moisture_sensor.getD freshSensor) } := by
  unfold DeviceV3.receive at h
  repeat' split at h
  all_goals first
    | exact absurd rfl (by assumption : ¬(true = true))
    | exact absurd (by assumption : false = true) (by simp)
    | exact absurd (by assumption : true = false) (by simp)
    | exact absurd rfl (by assumption : ¬(false = false))
    | (simp only [Except.ok.injEq] at h
       exact ⟨_, by assumption, h.symm⟩)
    | exact absurd h (by simp)

theorem DeviceV3.receive_false_eq_v3 (d : DeviceV3) (msg : String) (d' : DeviceV3)
    (h : DeviceV3.receive d msg false = .ok d') :
    ∃ m hv tv av bv mo,
      messageGroups msg = .ok m ∧
      parse_as_float_A m 3 = .ok hv ∧
      parse_as_float_A m 4 = .ok tv ∧
      parse_as_float_A m 5 = .ok av ∧
      parse_as_battery_val m = .ok bv ∧
      parse_moisture_val m = .ok mo ∧
      d' = { _id := d._id,
             humidity_sensor := some { native_value := some hv },
             temperature_sensor := some { native_value := some tv },
             adc_sensor := some { native_value := some av },
             battery_sensor := some { native_value := some bv },
             moisture_sensor := some { native_value := some mo } } := by
  unfold DeviceV3.receive at h
  repeat' split at h
  all_goals first
    | exact absurd rfl (by assumption : ¬(false = false))
    | exact absurd (by assumption : true = false) (by simp)
    | exact absurd (by assumption : false = true) (by simp)
    | (simp only [Except.ok.injEq] at h
       exact ⟨_, _, _, _, _, _, by assumption, by assumption, by assumption, by assumption,
         by assumption, by assumption, h.symm⟩)
    | exact absurd h (by simp)

theorem DeviceV3JSON.receive_true_eq_v3json (d : DeviceV3JSON) (msg : String) (d' : DeviceV3JSON)
    (h : DeviceV3JSON.receive d msg true = .ok d') :
    ∃ j2, messageInnerJson msg = .ok j2 ∧
      d' = { _id := d._id,
             humidity_sensor := some (d.humidity_sensor.getD freshSensor),
             temperature_sensor := some (d.temperature_sensor.getD freshSensor),
             battery_sensor := some (d.battery_sensor.getD freshSensor),
             moisture_sensor := some (d.moisture_sensor.getD freshSensor) } := by
  unfold DeviceV3JSON.receive at h
  repeat' split at h
  all_goals first
    | exact absurd rfl (by assumption : ¬(true = true))
    | exact absurd (by assumption : false = true) (by simp)
    | exact absurd (by assumption : true = false) (by simp)
    | exact absurd rfl (by assumption : ¬(false = false))
    | (simp only [Except.ok.injEq] at h
       exact ⟨_, by assumption, h.symm⟩)
    | exact absurd h (by simp)

theorem DeviceV3JSON.receive_false_eq_v3json (d : DeviceV3JSON) (msg : String) (d' : DeviceV3JSON)
    (h : DeviceV3JSON.receive d msg false = .ok d') :
    ∃ j2 hv tv bv mo,
      messageInnerJson msg = .ok j2 ∧
      parse_as_float_J j2 "hum" = .ok hv ∧
      parse_as_float_J j2 "temp" = .ok tv ∧
      parse_as_float_J j2 "bat" = .ok bv ∧
      parse_as_float_J j2 "adc" = .ok mo ∧
      d' = { _id := d._id,
             humidity_sensor := some { native_value := some hv },
             temperature_sensor := some { native_value := some tv },
             battery_sensor := some { native_value := some bv },
             moisture_sensor := some { native_value := some mo } } := by
  unfold DeviceV3JSON.receive at h
  repeat' split at h
  all_goals first
    | exact absurd rfl (by assumption : ¬(false = false))
    | exact absurd (by assumption : true = false) (by simp)
    | exact absurd (by assumption : false = true) (by simp)
    | (simp only [Except.ok.injEq] at h
       exact ⟨_, _, _, _, _, by assumption, by assumption, by assumption, by assumption,
         by assumption, h.symm⟩)
    | exact absurd h (by simp)

/-- Forward computation of a live `MakerFabsSoilSensorV3.receive` from
the parse results. -/
theorem DeviceV3.receive_false_run_v3 (d : DeviceV3) (msg : String) (m : Option GroupsA)
    (hv tv av bv mo : PyNum)
    (hm : messageGroups msg = .ok m)
    (h3 : parse_as_float_A m 3 = .ok hv)
    (h4 : parse_as_float_A m 4 = .ok tv)
    (h5 : parse_as_float_A m 5 = .ok av)
    (hb : parse_as_battery_val m = .ok bv)
    (hmo : parse_moisture_val m = .ok mo) :
    DeviceV3.receive d msg false =
      .ok { _id := d._id,
            humidity_sensor := some { native_value := some hv },
            temperature_sensor := some { native_value := some tv },
            adc_sensor := some { native_value := some av },
            battery_sensor := some { native_value := some bv },
            moisture_sensor := some { native_value := some mo } } := by
  unfold DeviceV3.receive
  simp [hm, h3, h4, h5, hb, hmo]

/-- Forward computation of a live `MakerFabsSoilSensorV3JSON.receive`
from the parse results. -/
theorem DeviceV3JSON.receive_false_run_v3json (d : DeviceV3JSON) (msg : String) (j2 : Json)
    (hv tv bv mo : PyNum)
    (hm : messageInnerJson msg = .ok j2)
    (h1 : parse_as_float_J j2 "hum" = .ok hv)
    (h2 : parse_as_float_J j2 "temp" = .ok tv)
    (h3 : parse_as_float_J j2 "bat" = .ok bv)
    (h4 : parse_as_float_J j2 "adc" = .ok mo) :
    DeviceV3JSON.receive d msg false =
      .ok { _id := d._id,
            humidity_sensor := some { native_value := some hv },
            temperature_sensor := some { native_value := some tv },
            battery_sensor := some { native_value := some bv },
            moisture_sensor := some { native_value := some mo } } := by
  unfold DeviceV3JSON.receive
  simp [hm, h1, h2, h3, h4]

/-- `receive` never changes the stored device id or the device's class. -/
theorem Device.receive_cls_id (d : Device) (msg : String) (ro : Bool) (d' : Device)
    (h : Device.receive d msg ro = .ok d') : d'.cls = d.cls ∧ d'.id = d.id := by
  cases d with
  | v3 dv =>
    simp only [Device.receive] at h
    cases hr : DeviceV3.receive dv msg ro with
    | error e => rw [hr] at h; exact absurd h (by simp)
    | ok dv' =>
      rw [hr] at h
      simp only [Except.ok.injEq] at h
      subst h
      cases ro with
      | true =>
        obtain ⟨m, _, hd⟩ := DeviceV3.receive_true_eq_v3 _ _ _ hr
        subst hd
        exact ⟨rfl, rfl⟩
      | false =>
        obtain ⟨m, hv, tv, av, bv, mo, _, _, _, _, _, _, hd⟩ := DeviceV3.receive_false_eq_v3 _ _ _ hr
        subst hd
        exact ⟨rfl, rfl⟩
  | v3json dv =>
    simp only [Device.receive] at h
    cases hr : DeviceV3JSON.receive dv msg ro with
    | error e => rw [hr] at h; exact absurd h (by simp)
    | ok dv' =>
      rw [hr] at h
      simp only [Except.ok.injEq] at h
      subst h
      cases ro with
      | true =>
        obtain ⟨j2, _, hd⟩ := DeviceV3JSON.receive_true_eq_v3json _ _ _ hr
        subst hd
        exact ⟨rfl, rfl⟩
      | false =>
        obtain ⟨j2, hv, tv, bv, mo, _, _, _, _, _, hd⟩ := DeviceV3JSON.receive_false_eq_v3json _ _ _ hr
        subst hd
        exact ⟨rfl, rfl⟩

/-- A live `receive` is idempotent on the device state: receiving the
same message again reproduces exactly the same channel values. -/
theorem Device.receive_idem (d : Device) (msg : String) (d' : Device)
    (h : Device.receive d msg false = .ok d') : Device.receive d' msg false = .ok d' := by
  cases d with
  | v3 dv =>
    simp only [Device.receive] at h
    cases hr : DeviceV3.receive dv msg false with
    | error e => rw [hr] at h; exact absurd h (by simp)
    | ok dv' =>
      rw [hr] at h
      simp only [Except.ok.injEq] at h
      subst h
      obtain ⟨m, hv, tv, av, bv, mo, hm, h3, h4, h5, hb, hmo, hd⟩ :=
        DeviceV3.receive_false_eq_v3 _ _ _ hr
      subst hd
      simp only [Device.receive]
      rw [DeviceV3.receive_false_run_v3 _ _ _ _ _ _ _ _ hm h3 h4 h5 hb hmo]
  | v3json dv =>
    simp only [Device.receive] at h
    cases hr : DeviceV3JSON.receive dv msg false with
    | error e => rw [hr] at h; exact absurd h (by simp)
    | ok dv' =>
      rw [hr] at h
      simp only [Except.ok.injEq] at h
      subst h
      obtain ⟨j2, hv, tv, bv, mo, hm, h1, h2, h3, h4, hd⟩ :=
        DeviceV3JSON.receive_false_eq_v3json _ _ _ hr
      subst hd
      simp only [Device.receive]
      rw [DeviceV3JSON.receive_false_run_v3json _ _ _ _ _ _ _ hm h1 h2 h3 h4]

/-! ## Shared concrete payloads -/

/-- Format A envelope `{"message":"ID7 REPLY : SOIL INEDX:1 H:55.2 T:21.0 ADC:600 BAT:300"}`. -/
def msgFormatA : String :=
  "\x7b\"message\":\"ID7 REPLY : SOIL INEDX:1 H:55.2 T:21.0 ADC:600 BAT:300\"\x7d"

/-- Nested-JSON envelope
`{"message":"{\"node_id\":\"42\",\"hum\":50,\"temp\":20,\"bat\":3.1,\"adc\":10}"}`. -/
def nestedJsonPayload : String :=
  "\x7b\"message\":\"\x7b\\\"node_id\\\":\\\"42\\\",\\\"hum\\\":50,\\\"temp\\\":20,\\\"bat\\\":3.1,\\\"adc\\\":10\x7d\"\x7d"

/-! ## Helper lemmas about the router passes -/

/-- If every known device's class fails to match a payload, the first
pass of `route_message` returns no device. -/
theorem findKnownSplit_none (ds : List Device) (msg : String)
    (hall : ∀ d ∈ ds, DeviceClass.matchFn d.cls msg = .ok none) :
    findKnownSplit ds msg = .ok none := by
  induction ds with
  | nil => rfl
  | cons d rest ih =>
    unfold findKnownSplit
    rw [hall d (by simp)]
    have hrest : findKnownSplit rest msg = .ok none :=
      ih (fun x hx => hall x (by simp [hx]))
    simp [matchHit, hrest]

/-! ## Claim theorems -/

/--
Claim C1.  The spec says routing the nested-JSON envelope
`{"message":"{\"node_id\":\"42\",...}"}` through `route_message` on a
fresh registry creates a `MakerFabsSoilSensorV3JSON_42` device with the
four channels set to the raw passthrough values 50.0 / 20.0 / 3.1 / 10.0.
On the code this fails: `all_devices_classes` registers only
`MakerFabsSoilSensorV3`, so the payload routes to `unmatched` and the
registry stays empty — even though `MakerFabsSoilSensorV3JSON` itself
matches the payload (id `"42"`), its constructor yields full id
`MakerFabsSoilSensorV3JSON_42`, and its `receive` would set exactly the
claimed channel values.  The class is simply never registered.
-/
theorem claim_C1_json_device_not_routed :
    route_message ⟨[], []⟩ nestedJsonPayload false = .ok ⟨[], []⟩
  ∧ all_devices_classes = [DeviceClass.v3]
  ∧ MakerFabsSoilSensorV3JSON_match nestedJsonPayload = .ok (some (Json.str "42"))
  ∧ mkMakerFabsSoilSensorV3JSON nestedJsonPayload = .ok ⟨Json.str "42", none, none, none, none⟩
  ∧ Device.full_id (Device.v3json ⟨Json.str "42", none, none, none, none⟩) =
      .ok "MakerFabsSoilSensorV3JSON_42"
  ∧ DeviceV3JSON.receive ⟨Json.str "42", none, none, none, none⟩ nestedJsonPayload false =
      .ok ⟨Json.str "42", some ⟨some ⟨50, 1⟩⟩, some ⟨some ⟨20, 1⟩⟩,
           some ⟨some ⟨31, 10⟩⟩, some ⟨some ⟨10, 1⟩⟩⟩ :=
  ⟨rfl, rfl, rfl, rfl, rfl, rfl⟩

/--
Claim C2.  The spec says classification is total and exception-free over
arbitrary input.  On the code this fails: for the payload `5` (valid
JSON that is not an object), `'message' not in j` raises an uncaught
`TypeError` in both `match` methods (the `except` clause only catches
`json.decoder.JSONDecodeError`), and `route_message` aborts with that
exception; likewise for an envelope whose `message` value is not a
string (`{"message": 5}`).
-/
theorem claim_C2_classification_raises :
    MakerFabsSoilSensorV3_match "5" = .error PyErr.typeError
  ∧ MakerFabsSoilSensorV3JSON_match "5" = .error PyErr.typeError
  ∧ MakerFabsSoilSensorV3_match "\x7b\"message\": 5\x7d" = .error PyErr.typeError
  ∧ MakerFabsSoilSensorV3JSON_match "\x7b\"message\": 5\x7d" = .error PyErr.typeError
  ∧ route_message ⟨[], []⟩ "5" false = .error PyErr.typeError :=
  ⟨rfl, rfl, rfl, rfl, rfl⟩

/--
Claim C7.  Routing the payload `{"foo":"bar"}` yields unmatched: both
device classes return `None` for it (the JSON parses but has no
`message` key), so `route_message` returns with the router state —
known devices and `recent_messages` — completely unchanged, in any
state and in both live and replay mode; the non-match is logged, not
raised.
-/
theorem claim_C7_unmatched_noop (r : OMGRouterSensor) (ro : Bool) :
    route_message r "\x7b\"foo\":\"bar\"\x7d" ro = .ok r := by
  have hcls : ∀ c : DeviceClass, DeviceClass.matchFn c "\x7b\"foo\":\"bar\"\x7d" = .ok none := by
    intro c
    cases c <;> rfl
  have hsplit : findKnownSplit r.known_devices "\x7b\"foo\":\"bar\"\x7d" = .ok none :=
    findKnownSplit_none _ _ (fun d _ => hcls d.cls)
  have hnew : findNew all_devices_classes "\x7b\"foo\":\"bar\"\x7d" = .ok none := rfl
  unfold route_message
  simp [hsplit, hnew]

/--
Claim C9.  For every message on which a device class's own `match`
returns no identifier (`None`), constructing that class's decoder fails
with the fatal `assert False` of the constructor (`AssertionError`),
not with a decoder instance or a recoverable error.
-/
theorem claim_C9_construct_asserts (msg : String) :
    (MakerFabsSoilSensorV3_match msg = .ok none →
      DeviceClass.construct DeviceClass.v3 msg = .error PyErr.assertionError)
  ∧ (MakerFabsSoilSensorV3JSON_match msg = .ok none →
      DeviceClass.construct DeviceClass.v3json msg = .error PyErr.assertionError) := by
  constructor
  · intro h
    simp [DeviceClass.construct, mkMakerFabsSoilSensorV3, h]
  · intro h
    simp [DeviceClass.construct, mkMakerFabsSoilSensorV3JSON, h]

/-- Witness for C9 at the concrete non-matching payload `{"foo":"bar"}`. -/
theorem claim_C9_witness :
    MakerFabsSoilSensorV3_match "\x7b\"foo\":\"bar\"\x7d" = .ok none ∧
    DeviceClass.construct DeviceClass.v3 "\x7b\"foo\":\"bar\"\x7d" = .error PyErr.assertionError :=
  ⟨rfl, (claim_C9_construct_asserts "\x7b\"foo\":\"bar\"\x7d").1 rfl⟩

/-- Frame condition of a replay-suppressed `receive`: every channel of
the device exists afterwards, each newly created one carries no value,
and every channel that already existed is byte-for-byte unchanged (and
the device id is unchanged). -/
def restoreShape : Device → Device → Prop
  | .v3 d, .v3 d' =>
      d'._id = d._id ∧
      d'.humidity_sensor = some (d.humidity_sensor.getD freshSensor) ∧
      d'.temperature_sensor = some (d.temperature_sensor.getD freshSensor) ∧
      d'.adc_sensor = some (d.adc_sensor.getD freshSensor) ∧
      d'.battery_sensor = some (d.battery_sensor.getD freshSensor) ∧
      d'.moisture_sensor = some (d.moisture_sensor.getD freshSensor)
  | .v3json d, .v3json d' =>
      d'._id = d._id ∧
      d'.humidity_sensor = some (d.humidity_sensor.getD freshSensor) ∧
      d'.temperature_sensor = some (d.temperature_sensor.getD freshSensor) ∧
      d'.battery_sensor = some (d.battery_sensor.getD freshSensor) ∧
      d'.moisture_sensor = some (d.moisture_sensor.getD freshSensor)
  | _, _ => False

/--
Claim C4.  For every message routed with replay suppression
(`restore_only=True`), each of the device's channels is created if it
does not yet exist (with no value), and no channel value is assigned or
overwritten: existing channel states are left exactly as they were.
Value assignment happens only on live passes (`restore_only=False`).
-/
theorem claim_C4_restore_frame (dev : Device) (msg : String) (dev' : Device)
    (h : Device.receive dev msg true = .ok dev') : restoreShape dev dev' := by
  cases dev with
  | v3 dv =>
    simp only [Device.receive] at h
    cases hr : DeviceV3.receive dv msg true with
    | error e => rw [hr] at h; exact absurd h (by simp)
    | ok dv' =>
      rw [hr] at h
      simp only [Except.ok.injEq] at h
      subst h
      obtain ⟨m, _, hd⟩ := DeviceV3.receive_true_eq_v3 _ _ _ hr
      subst hd
      exact ⟨rfl, rfl, rfl, rfl, rfl, rfl⟩
  | v3json dv =>
    simp only [Device.receive] at h
    cases hr : DeviceV3JSON.receive dv msg true with
    | error e => rw [hr] at h; exact absurd h (by simp)
    | ok dv' =>
      rw [hr] at h
      simp only [Except.ok.injEq] at h
      subst h
      obtain ⟨j2, _, hd⟩ := DeviceV3JSON.receive_true_eq_v3json _ _ _ hr
      subst hd
      exact ⟨rfl, rfl, rfl, rfl, rfl⟩

/-- Witness for C4: a replay-suppressed `receive` of the Format A
envelope on a fresh device of id `"7"` creates the five channels with no
value. -/
theorem claim_C4_witness :
    restoreShape (Device.v3 ⟨Json.str "7", none, none, none, none, none⟩)
      (Device.v3 ⟨Json.str "7", some freshSensor, some freshSensor, some freshSensor,
        some freshSensor, some freshSensor⟩) :=
  claim_C4_restore_frame _ msgFormatA _ (by rfl)

theorem pyGroup_inv_six (m : Option GroupsA) (s : String) (h : pyGroup m 6 = .ok s) :
    ∃ gs, m = some gs ∧ s = gs.g6 := by
  cases m with
  | none => exact absurd h (by simp [pyGroup])
  | some gs =>
    refine ⟨gs, rfl, ?_⟩
    simp only [pyGroup, Except.ok.injEq] at h
    exact h.symm

theorem pyGroup_inv_five (m : Option GroupsA) (s : String) (h : pyGroup m 5 = .ok s) :
    ∃ gs, m = some gs ∧ s = gs.g5 := by
  cases m with
  | none => exact absurd h (by simp [pyGroup])
  | some gs =>
    refine ⟨gs, rfl, ?_⟩
    simp only [pyGroup, Except.ok.injEq] at h
    exact h.symm

/-- Inversion of the `parse_moisture` closure: a successful result comes
from a real match object whose groups 5 and 6 parse as floats, and is
exactly the calibration formula applied to them. -/
theorem parse_moisture_val_inv (m : Option GroupsA) (mo : PyNum)
    (h : parse_moisture_val m = .ok mo) :
    ∃ gs q5 q6, m = some gs ∧ pyFloatOfString gs.g6 = .ok q6 ∧
      pyFloatOfString gs.g5 = .ok q5 ∧ mo = moistureFormula q5 q6 := by
  unfold parse_moisture_val at h
  repeat' split at h
  all_goals first
    | (simp only [Except.ok.injEq] at h
       subst h
       obtain ⟨gs, hm6, hs6⟩ := pyGroup_inv_six _ _ (by assumption)
       obtain ⟨gs', hm5, hs5⟩ := pyGroup_inv_five _ _ (by assumption)
       rw [hm6] at hm5
       simp only [Option.some.injEq] at hm5
       subst hm5
       subst hs6
       subst hs5
       exact ⟨gs, _, _, by assumption, by assumption, by assumption, rfl⟩)
    | exact absurd h (by simp)

/-- Value form of a successful `parse_moisture_val` at a known match. -/
theorem parse_moisture_val_run (gs : GroupsA) (q5 q6 : PyNum)
    (h5 : pyFloatOfString gs.g5 = .ok q5) (h6 : pyFloatOfString gs.g6 = .ok q6) :
    parse_moisture_val (some gs) = .ok (moistureFormula q5 q6) := by
  have hg6 : pyGroup (some gs) 6 = .ok gs.g6 := rfl
  have hg5 : pyGroup (some gs) 5 = .ok gs.g5 := rfl
  simp only [parse_moisture_val, hg6, h6, hg5, h5]

/-- Value form of a successful `parse_as_battery_val` at a known match. -/
theorem parse_as_battery_val_run (gs : GroupsA) (q6 : PyNum)
    (h6 : pyFloatOfString gs.g6 = .ok q6) :
    parse_as_battery_val (some gs) = .ok ((q6.mul ⟨33, 10⟩).div ⟨1024, 1⟩) := by
  have hg6 : pyGroup (some gs) 6 = .ok gs.g6 := rfl
  simp only [parse_as_battery_val, hg6, h6]

/-- The capture groups of the Format A sample message
`ID7 REPLY : SOIL INEDX:1 H:55.2 T:21.0 ADC:600 BAT:300`. -/
def groupsFormatA : GroupsA := ⟨"7", "1", "55.2", "21.0", "600", "300"⟩

/-- The decoded device state after a live receive of `msgFormatA`. -/
def devFormatA : DeviceV3 :=
  ⟨Json.str "7", some ⟨some ⟨552, 10⟩⟩, some ⟨some ⟨210, 10⟩⟩, some ⟨some ⟨600, 1⟩⟩,
   some ⟨some ⟨9900, 10240⟩⟩, some ⟨some ⟨4521700, 51200⟩⟩⟩

/--
Claim C3.  For every Format A message matching the grammar, the decoded
moisture channel value equals
`100 − (max(g5 − (45 − 2.0)·(g6·3.3/1024), 500) − 500) / 5`
(the floor at 500 and the constant `45 − 2.0` exactly as in the source);
in particular, for `g5 = 600`, `g6 = 300`: battery level
`= 0.966796875`, battery-adjusted reading `= 558.427734375`, and
moisture value `= 88.314453125 ≈ 88.31` (within `0.01`).  Arithmetic is
modelled exactly over the rationals.
-/
theorem claim_C3_moisture_calibration :
    (∀ (d : DeviceV3) (msg : String) (d' : DeviceV3) (gs : GroupsA) (q5 q6 : PyNum),
      messageGroups msg = .ok (some gs) →
      pyFloatOfString gs.g5 = .ok q5 →
      pyFloatOfString gs.g6 = .ok q6 →
      DeviceV3.receive d msg false = .ok d' →
      ∃ v : PyNum, d'.moisture_sensor = some { native_value := some v } ∧
        v.toRat = 100 - ((max (q5.toRat - (45 - 2) * (q6.toRat * (33 / 10) / 1024)) 500) - 500) / 5)
  ∧ (∃ b : PyNum, parse_as_battery_val (some groupsFormatA) = .ok b ∧ b.toRat = 0.966796875)
  ∧ ((600 : ℚ) - (45 - 2) * 0.966796875 = 558.427734375)
  ∧ (∃ v : PyNum, parse_moisture_val (some groupsFormatA) = .ok v ∧
      v.toRat = 88.314453125 ∧ |(88.314453125 : ℚ) - 88.31| < 1 / 100) := by
  refine ⟨?_, ⟨⟨9900, 10240⟩, rfl, by norm_num [PyNum.toRat]⟩, by norm_num,
    ⟨⟨4521700, 51200⟩, rfl, by norm_num [PyNum.toRat], ?_⟩⟩
  · intro d msg d' gs q5 q6 hmg h5 h6 hrecv
    obtain ⟨m, hv, tv, av, bv, mo, hm, _, _, _, _, hmo, hd⟩ :=
      DeviceV3.receive_false_eq_v3 _ _ _ hrecv
    rw [hmg] at hm
    simp only [Except.ok.injEq] at hm
    subst hm
    rw [parse_moisture_val_run gs q5 q6 h5 h6] at hmo
    simp only [Except.ok.injEq] at hmo
    subst hmo
    subst hd
    refine ⟨moistureFormula q5 q6, rfl, ?_⟩
    exact moistureFormula_toRat q5 q6 (pyFloatOfString_denPos _ _ h5) (pyFloatOfString_denPos _ _ h6)
  · have habs : (88.314453125 : ℚ) - 88.31 = 0.004453125 := by norm_num
    rw [habs, abs_of_nonneg (by norm_num)]
    norm_num

/-- Witness for C3 at the Format A sample message (`g5=600`, `g6=300`). -/
theorem claim_C3_witness :
    ∃ v : PyNum, devFormatA.moisture_sensor = some { native_value := some v } ∧
      v.toRat = 100 - ((max ((⟨600, 1⟩ : PyNum).toRat -
        (45 - 2) * ((⟨300, 1⟩ : PyNum).toRat * (33 / 10) / 1024)) 500) - 500) / 5 :=
  claim_C3_moisture_calibration.1 ⟨Json.str "7", none, none, none, none, none⟩ msgFormatA
    devFormatA groupsFormatA ⟨600, 1⟩ ⟨300, 1⟩ rfl rfl rfl rfl

/--
Claim C8.  For every Format A message matching the grammar, the battery
channel value equals `g6 · 3.3 / 1024` volts; in particular a raw
battery value of `0` yields exactly `0` V and a raw value of `1024`
yields exactly `3.3` V (arithmetic modelled exactly over the
rationals).
-/
theorem claim_C8_battery_conversion :
    (∀ (d : DeviceV3) (msg : String) (d' : DeviceV3) (gs : GroupsA) (q6 : PyNum),
      messageGroups msg = .ok (some gs) →
      pyFloatOfString gs.g6 = .ok q6 →
      DeviceV3.receive d msg false = .ok d' →
      ∃ v : PyNum, d'.battery_sensor = some { native_value := some v } ∧
        v.toRat = q6.toRat * (33 / 10) / 1024)
  ∧ (∃ v : PyNum, parse_as_battery_val (some ⟨"7", "1", "55.2", "21.0", "600", "0"⟩) = .ok v ∧
      v.toRat = 0)
  ∧ (∃ v : PyNum, parse_as_battery_val (some ⟨"7", "1", "55.2", "21.0", "600", "1024"⟩) = .ok v ∧
      v.toRat = 33 / 10) := by
  refine ⟨?_, ⟨⟨0, 10240⟩, rfl, by norm_num [PyNum.toRat]⟩,
    ⟨⟨33792, 10240⟩, rfl, by norm_num [PyNum.toRat]⟩⟩
  intro d msg d' gs q6 hmg h6 hrecv
  obtain ⟨m, hv, tv, av, bv, mo, hm, _, _, _, hb, _, hd⟩ :=
    DeviceV3.receive_false_eq_v3 _ _ _ hrecv
  rw [hmg] at hm
  simp only [Except.ok.injEq] at hm
  subst hm
  rw [parse_as_battery_val_run gs q6 h6] at hb
  simp only [Except.ok.injEq] at hb
  subst hb
  subst hd
  exact ⟨(q6.mul ⟨33, 10⟩).div ⟨1024, 1⟩, rfl, battery_toRat q6⟩

/-- Witness for C8 at the Format A sample message (`g6=300`). -/
theorem claim_C8_witness :
    ∃ v : PyNum, devFormatA.battery_sensor = some { native_value := some v } ∧
      v.toRat = (⟨300, 1⟩ : PyNum).toRat * (33 / 10) / 1024 :=
  claim_C8_battery_conversion.1 ⟨Json.str "7", none, none, none, none, none⟩ msgFormatA
    devFormatA groupsFormatA ⟨300, 1⟩ rfl rfl rfl

/--
Claim C10.  For every Format A message decoded live, the moisture value
is at most 100; the `max(·, 500)` floor makes it exactly 100 whenever
the battery-adjusted reading is at or below 500; and no lower bound
holds — the value is arbitrarily negative for large ADC readings.
-/
theorem claim_C10_moisture_bounds :
    (∀ (d : DeviceV3) (msg : String) (d' : DeviceV3),
      DeviceV3.receive d msg false = .ok d' →
      ∃ v : PyNum, d'.moisture_sensor = some { native_value := some v } ∧ v.toRat ≤ 100)
  ∧ (∀ q5 q6 : PyNum, 0 < q5.den → 0 < q6.den →
      q5.toRat - (45 - 2) * (q6.toRat * (33 / 10) / 1024) ≤ 500 →
      (moistureFormula q5 q6).toRat = 100)
  ∧ (∀ B : ℚ, ∃ n : ℕ, (moistureFormula ⟨(n : ℤ), 1⟩ ⟨0, 1⟩).toRat < B) := by
  refine ⟨?_, ?_, ?_⟩
  · intro d msg d' hrecv
    obtain ⟨m, hv, tv, av, bv, mo, _, _, _, _, _, hmo, hd⟩ :=
      DeviceV3.receive_false_eq_v3 _ _ _ hrecv
    obtain ⟨gs, q5, q6, hm, h6, h5, hval⟩ := parse_moisture_val_inv _ _ hmo
    subst hd
    subst hval
    refine ⟨moistureFormula q5 q6, rfl, ?_⟩
    rw [moistureFormula_toRat q5 q6 (pyFloatOfString_denPos _ _ h5)
      (pyFloatOfString_denPos _ _ h6)]
    have hmax : (500 : ℚ) ≤ max (q5.toRat - (45 - 2) * (q6.toRat * (33 / 10) / 1024)) 500 :=
      le_max_right _ _
    linarith
  · intro q5 q6 h5 h6 hle
    rw [moistureFormula_toRat q5 q6 h5 h6, max_eq_right hle]
    norm_num
  · intro B
    obtain ⟨n, hn⟩ := exists_nat_gt (max (500 + 5 * (100 - B)) 500)
    refine ⟨n, ?_⟩
    have hden : (0 : ℤ) < (⟨(n : ℤ), 1⟩ : PyNum).den := by norm_num
    have h1 : ((⟨(n : ℤ), 1⟩ : PyNum) : PyNum).toRat = (n : ℚ) := by
      simp [PyNum.toRat]
    have h2 : ((⟨0, 1⟩ : PyNum) : PyNum).toRat = 0 := by
      simp [PyNum.toRat]
    rw [moistureFormula_toRat _ _ (by norm_num) (by norm_num), h1, h2]
    have hgt500 : (500 : ℚ) < (n : ℚ) := lt_of_le_of_lt (le_max_right _ _) hn
    have hgtB : (500 : ℚ) + 5 * (100 - B) < (n : ℚ) := lt_of_le_of_lt (le_max_left _ _) hn
    rw [max_eq_left (by linarith)]
    linarith

/-- Witness for C10 at the Format A sample message. -/
theorem claim_C10_witness :
    ∃ v : PyNum, devFormatA.moisture_sensor = some { native_value := some v } ∧ v.toRat ≤ 100 :=
  claim_C10_moisture_bounds.1 ⟨Json.str "7", none, none, none, none, none⟩ msgFormatA
    devFormatA (by rfl)

/-! ## Lemmas about the router passes -/

theorem findKnownSplit_inv (ds : List Device) (msg : String)
    (pre : List Device) (d : Device) (post : List Device)
    (h : findKnownSplit ds msg = .ok (some (pre, d, post))) :
    ds = pre ++ d :: post ∧
    (∀ x ∈ pre, ∃ m, DeviceClass.matchFn x.cls msg = .ok m ∧ matchHit m x = false) ∧
    (∃ m, DeviceClass.matchFn d.cls msg = .ok m ∧ matchHit m d = true) := by
  induction ds generalizing pre with
  | nil => exact absurd h (by simp [findKnownSplit])
  | cons dd rest ih =>
    unfold findKnownSplit at h
    cases hm : DeviceClass.matchFn dd.cls msg with
    | error e => rw [hm] at h; exact absurd h (by simp)
    | ok m =>
      rw [hm] at h
      dsimp only at h
      by_cases hh : matchHit m dd
      · rw [if_pos hh] at h
        simp only [Except.ok.injEq, Option.some.injEq, Prod.mk.injEq] at h
        obtain ⟨hp, hd, hpost⟩ := h
        subst hp; subst hd; subst hpost
        exact ⟨rfl, by simp, ⟨m, hm, hh⟩⟩
      · rw [if_neg hh] at h
        cases hr : findKnownSplit rest msg with
        | error e => rw [hr] at h; exact absurd h (by simp)
        | ok o =>
          rw [hr] at h
          cases o with
          | none => exact absurd h (by simp)
          | some triple =>
            obtain ⟨pre', x, post'⟩ := triple
            simp only [Except.ok.injEq, Option.some.injEq, Prod.mk.injEq] at h
            obtain ⟨hp, hd, hpost⟩ := h
            subst hd; subst hpost
            obtain ⟨hds, hpre', hhit⟩ := ih pre' hr
            subst hds
            rw [← hp]
            refine ⟨rfl, ?_, hhit⟩
            intro y hy
            rcases List.mem_cons.mp hy with hy | hy
            · subst hy
              exact ⟨m, hm, eq_false_of_ne_true hh⟩
            · exact hpre' y hy

theorem findKnownSplit_none_inv (ds : List Device) (msg : String)
    (h : findKnownSplit ds msg = .ok none) :
    ∀ x ∈ ds, ∃ m, DeviceClass.matchFn x.cls msg = .ok m ∧ matchHit m x = false := by
  induction ds with
  | nil => intro x hx; exact absurd hx (by simp)
  | cons dd rest ih =>
    unfold findKnownSplit at h
    cases hm : DeviceClass.matchFn dd.cls msg with
    | error e => rw [hm] at h; exact absurd h (by simp)
    | ok m =>
      rw [hm] at h
      dsimp only at h
      by_cases hh : matchHit m dd
      · rw [if_pos hh] at h; exact absurd h (by simp)
      · rw [if_neg hh] at h
        cases hr : findKnownSplit rest msg with
        | error e => rw [hr] at h; exact absurd h (by simp)
        | ok o =>
          rw [hr] at h
          cases o with
          | some triple => exact absurd h (by simp)
          | none =>
            intro x hx
            rcases List.mem_cons.mp hx with hx | hx
            · subst hx; exact ⟨m, hm, eq_false_of_ne_true hh⟩
            · exact ih hr x hx

theorem findKnownSplit_found (pre : List Device) (d : Device) (post : List Device) (msg : String)
    (hpre : ∀ x ∈ pre, ∃ m, DeviceClass.matchFn x.cls msg = .ok m ∧ matchHit m x = false)
    (hd : ∃ m, DeviceClass.matchFn d.cls msg = .ok m ∧ matchHit m d = true) :
    findKnownSplit (pre ++ d :: post) msg = .ok (some (pre, d, post)) := by
  induction pre with
  | nil =>
    obtain ⟨m, hm, hh⟩ := hd
    rw [List.nil_append]
    unfold findKnownSplit
    rw [hm]
    simp [hh]
  | cons x rest ih =>
    obtain ⟨m, hm, hh⟩ := hpre x (by simp)
    have hrest := ih (fun y hy => hpre y (by simp [hy]))
    rw [List.cons_append]
    unfold findKnownSplit
    rw [hm]
    simp [hh, hrest]

theorem DeviceClass.construct_inv (k : DeviceClass) (msg : String) (dev : Device)
    (h : k.construct msg = .ok dev) :
    k.matchFn msg = .ok (some dev.id) ∧ dev.cls = k := by
  cases k with
  | v3 =>
    simp only [DeviceClass.construct, mkMakerFabsSoilSensorV3] at h
    cases hm : MakerFabsSoilSensorV3_match msg with
    | error e => rw [hm] at h; exact absurd h (by simp)
    | ok o =>
      rw [hm] at h
      cases o with
      | none => exact absurd h (by simp)
      | some m =>
        simp only [Except.ok.injEq] at h
        subst h
        exact ⟨hm, rfl⟩
  | v3json =>
    simp only [DeviceClass.construct, mkMakerFabsSoilSensorV3JSON] at h
    cases hm : MakerFabsSoilSensorV3JSON_match msg with
    | error e => rw [hm] at h; exact absurd h (by simp)
    | ok o =>
      rw [hm] at h
      cases o with
      | none => exact absurd h (by simp)
      | some m =>
        simp only [Except.ok.injEq] at h
        subst h
        exact ⟨hm, rfl⟩

theorem MakerFabsSoilSensorV3_matchBody_str (msg : String) (m : Json)
    (h : MakerFabsSoilSensorV3_matchBody msg = .ok (some m)) : ∃ s, m = Json.str s := by
  unfold MakerFabsSoilSensorV3_matchBody at h
  repeat' split at h
  all_goals first
    | (simp only [Except.ok.injEq, Option.some.injEq] at h
       exact ⟨_, h.symm⟩)
    | exact absurd h (by simp)

/-- An id returned by `MakerFabsSoilSensorV3.match` is always a string
(regex capture group 1). -/
theorem MakerFabsSoilSensorV3_match_str (msg : String) (m : Json)
    (h : MakerFabsSoilSensorV3_match msg = .ok (some m)) : ∃ s, m = Json.str s := by
  unfold MakerFabsSoilSensorV3_match tryJsonDecode at h
  split at h
  · exact absurd h (by simp)
  · exact MakerFabsSoilSensorV3_matchBody_str msg m (by
      first
        | (rw [← h]; assumption)
        | rw [← h]
        | exact (by assumption : MakerFabsSoilSensorV3_matchBody msg = _).trans h)

theorem pyJsonEq_str_self (s : String) : pyJsonEq (Json.str s) (Json.str s) = true := by
  have h : pyJsonEq (Json.str s) (Json.str s) = (s == s) := rfl
  rw [h]
  simp

theorem findNew_v3_inv (msg : String) (k : DeviceClass)
    (h : findNew all_devices_classes msg = .ok (some k)) : k = DeviceClass.v3 := by
  unfold all_devices_classes findNew at h
  cases hm : DeviceClass.matchFn DeviceClass.v3 msg with
  | error e => rw [hm] at h; exact absurd h (by simp)
  | ok o =>
    rw [hm] at h
    cases o with
    | none => exact absurd h (by simp [findNew])
    | some m =>
      simp only [Except.ok.injEq, Option.some.injEq] at h
      exact h.symm

theorem Device.full_id_congr (d d' : Device) (hcls : d'.cls = d.cls) (hid : d'.id = d.id) :
    Device.full_id d' = Device.full_id d := by
  unfold Device.full_id
  rw [hcls, hid]

theorem dictSet_idem (l : List (String × String)) (k v : String) :
    dictSet (dictSet l k v) k v = dictSet l k v := by
  induction l with
  | nil => simp [dictSet]
  | cons kv rest ih =>
    obtain ⟨k0, v0⟩ := kv
    unfold dictSet
    by_cases h : k0 = k
    · simp [h, dictSet]
    · simp [h, dictSet, ih]

/--
Claim C6.  Routing the same matching message twice to the same router
does not create a second device: after a successful
`route_message r msg` produced state `r1`, routing `msg` again resolves
— via the first pass's re-`match` of each known device's class and the
comparison of the returned identifier with the device's own id — to the
device just used or created, updates the same channels to the same
values and rewrites the same `recent_messages` entry, so the second
route returns `r1` unchanged (in particular the `known_devices` length
is unchanged).
-/
theorem claim_C6_route_idempotent (r : OMGRouterSensor) (msg : String) (r1 : OMGRouterSensor)
    (h : route_message r msg false = .ok r1) : route_message r1 msg false = .ok r1 := by
  cases hsplit : findKnownSplit r.known_devices msg with
  | error e => simp only [route_message, hsplit] at h; exact absurd h (by simp)
  | ok o =>
    cases o with
    | some triple =>
      obtain ⟨pre, dev, post⟩ := triple
      cases hfid : Device.full_id dev with
      | error e => simp only [route_message, hsplit, hfid] at h; exact absurd h (by simp)
      | ok fid =>
        cases hrecv : Device.receive dev msg false with
        | error e => simp only [route_message, hsplit, hfid, hrecv] at h; exact absurd h (by simp)
        | ok dev' =>
          simp only [route_message, hsplit, hfid, hrecv, Except.ok.injEq] at h
          subst h
          obtain ⟨hds, hpre, m, hmm, hhit⟩ := findKnownSplit_inv _ _ _ _ _ hsplit
          obtain ⟨hcls, hid⟩ := Device.receive_cls_id _ _ _ _ hrecv
          have hhit' : matchHit m dev' = true := by
            unfold matchHit at hhit ⊢
            cases m with
            | none => exact absurd hhit (by simp)
            | some mv => rw [hid]; exact hhit
          have hsplit2 : findKnownSplit (pre ++ dev' :: post) msg = .ok (some (pre, dev', post)) :=
            findKnownSplit_found pre dev' post msg hpre ⟨m, by rw [hcls]; exact hmm, hhit'⟩
          have hfid2 : Device.full_id dev' = .ok fid :=
            (Device.full_id_congr dev dev' hcls hid).trans hfid
          have hrecv2 : Device.receive dev' msg false = .ok dev' :=
            Device.receive_idem _ _ _ hrecv
          simp only [route_message, hsplit2, hfid2, hrecv2, dictSet_idem]
    | none =>
      cases hnew : findNew all_devices_classes msg with
      | error e => simp only [route_message, hsplit, hnew] at h; exact absurd h (by simp)
      | ok onew =>
        cases onew with
        | none =>
          simp only [route_message, hsplit, hnew, Except.ok.injEq] at h
          subst h
          simp only [route_message, hsplit, hnew]
        | some k =>
          cases hcons : DeviceClass.construct k msg with
          | error e => simp only [route_message, hsplit, hnew, hcons] at h; exact absurd h (by simp)
          | ok dev =>
            cases hfid : Device.full_id dev with
            | error e => simp only [route_message, hsplit, hnew, hcons, hfid] at h; exact absurd h (by simp)
            | ok fid =>
              cases hrecv : Device.receive dev msg false with
              | error e => simp only [route_message, hsplit, hnew, hcons, hfid, hrecv] at h; exact absurd h (by simp)
              | ok dev' =>
                simp only [route_message, hsplit, hnew, hcons, hfid, hrecv,
                  Except.ok.injEq] at h
                subst h
                have hk := findNew_v3_inv _ _ hnew
                subst hk
                obtain ⟨hmk, hclsdev⟩ := DeviceClass.construct_inv _ _ _ hcons
                obtain ⟨sid, hsid⟩ := MakerFabsSoilSensorV3_match_str msg dev.id hmk
                obtain ⟨hcls, hid⟩ := Device.receive_cls_id _ _ _ _ hrecv
                have hprev := findKnownSplit_none_inv _ _ hsplit
                have hhit' : matchHit (some dev.id) dev' = true := by
                  unfold matchHit
                  rw [hid, hsid]
                  exact pyJsonEq_str_self sid
                have hsplit2 : findKnownSplit (r.known_devices ++ [dev']) msg =
                    .ok (some (r.known_devices, dev', [])) :=
                  findKnownSplit_found r.known_devices dev' [] msg hprev
                    ⟨some dev.id, by rw [hcls, hclsdev]; exact hmk, hhit'⟩
                have hfid2 : Device.full_id dev' = .ok fid :=
                  (Device.full_id_congr dev dev' hcls hid).trans hfid
                have hrecv2 : Device.receive dev' msg false = .ok dev' :=
                  Device.receive_idem _ _ _ hrecv
                simp only [route_message, hsplit2, hfid2, hrecv2, dictSet_idem]

/-- The router state after routing the Format A sample message on a
fresh router. -/
def routerFormatA : OMGRouterSensor :=
  ⟨[Device.v3 devFormatA], [("MakerFabsSoilSensorV3_7", msgFormatA)]⟩

/-- Witness for C6: re-routing the Format A sample message through the
state it produced is the identity. -/
theorem claim_C6_witness : route_message routerFormatA msgFormatA false = .ok routerFormatA :=
  claim_C6_route_idempotent ⟨[], []⟩ msgFormatA routerFormatA (by rfl)

/-! ## Replay of a saved snapshot (claim C5) -/

/-- What the restore loop does with a single stored payload on a fresh
registry: classify it over `all_devices_classes`, construct the device,
compute its `full_id`, and `receive` with `restore_only=True`; returns
the `full_id`.  A snapshot entry `(k, p)` written by `route_message`
satisfies `payloadRestoreId p = .ok k`: the key was computed from the
payload by this very pipeline. -/
def payloadRestoreId (p : String) : Except PyErr String :=
  match findNew all_devices_classes p with
  | .error e => .error e
  | .ok none => .error .keyError
  | .ok (some k) =>
    match DeviceClass.construct k p with
    | .error e => .error e
    | .ok dev =>
      match Device.full_id dev with
      | .error e => .error e
      | .ok fid =>
        match Device.receive dev p true with
        | .error e => .error e
        | .ok _ => .ok fid

/-- A snapshot is one that the router itself saved: every stored payload
re-derives its own key. -/
def snapConsistent (snap : List (String × String)) : Prop :=
  ∀ kv ∈ snap, payloadRestoreId kv.2 = .ok kv.1

/-- The devices recreated by replay: a `MakerFabsSoilSensorV3` whose
string id concatenates to the snapshot key. -/
def devKey (d : Device) (k : String) : Prop :=
  d.cls = DeviceClass.v3 ∧ ∃ s, d.id = Json.str s ∧ k = DeviceClass.v3.name ++ "_" ++ s

theorem devKey_full_id (d : Device) (k : String) (h : devKey d k) :
    Device.full_id d = .ok k := by
  obtain ⟨hcls, s, hid, hk⟩ := h
  simp [Device.full_id, pyStrAdd, hcls, hid, hk]

theorem deviceFullIds_of_forall2 (devs : List Device) (ks : List String)
    (h : List.Forall₂ devKey devs ks) : deviceFullIds devs = .ok ks := by
  induction h with
  | nil => rfl
  | cons h1 _ ih =>
    unfold deviceFullIds
    rw [devKey_full_id _ _ h1, ih]

theorem forall2_devKey_mem (devs : List Device) (ks : List String)
    (h : List.Forall₂ devKey devs ks) (d : Device) (hd : d ∈ devs) :
    ∃ k, k ∈ ks ∧ devKey d k := by
  induction h with
  | nil => exact absurd hd (by simp)
  | cons h1 _ ih =>
    rcases List.mem_cons.mp hd with he | hmem
    · subst he
      exact ⟨_, by simp, h1⟩
    · obtain ⟨k, hk1, hk2⟩ := ih hmem
      exact ⟨k, by simp [hk1], hk2⟩

theorem dictGet_mem (snap : List (String × String)) (k : String)
    (hk : k ∈ snap.map Prod.fst) :
    ∃ p, dictGet snap k = some p ∧ (k, p) ∈ snap := by
  induction snap with
  | nil => simp at hk
  | cons kv rest ih =>
    obtain ⟨k0, v0⟩ := kv
    by_cases h : k0 = k
    · subst h
      exact ⟨v0, by simp [dictGet], by simp⟩
    · have hk' : k ∈ rest.map Prod.fst := by
        simp only [List.map_cons, List.mem_cons] at hk
        rcases hk with he | hm
        · exact absurd he.symm h
        · exact hm
      obtain ⟨p, h1, h2⟩ := ih hk'
      exact ⟨p, by simp [dictGet, h, h1], by simp [h2]⟩

theorem dictSet_self (snap : List (String × String)) (k p : String)
    (hmem : (k, p) ∈ snap) (hnd : (snap.map Prod.fst).Nodup) :
    dictSet snap k p = snap := by
  induction snap with
  | nil => exact absurd hmem (by simp)
  | cons kv rest ih =>
    obtain ⟨k0, v0⟩ := kv
    simp only [List.map_cons, List.nodup_cons] at hnd
    unfold dictSet
    by_cases h : k0 = k
    · subst h
      rw [if_pos rfl]
      rcases List.mem_cons.mp hmem with he | ht
      · obtain ⟨_, hp⟩ := Prod.mk.injEq .. ▸ (by exact he.symm : (k0, v0) = (k0, p))
        rw [← hp]
      · exfalso
        exact hnd.1 (by simpa using List.mem_map_of_mem Prod.fst ht)
    · rw [if_neg h]
      rcases List.mem_cons.mp hmem with he | ht
      · exact absurd (congrArg Prod.fst he).symm h
      · rw [ih ht hnd.2]

/-- Inversion of `payloadRestoreId`: the pieces of the restore pipeline
for a consistent snapshot entry. -/
theorem payloadRestoreId_inv (p k : String) (h : payloadRestoreId p = .ok k) :
    ∃ dev dev' sid,
      DeviceClass.matchFn DeviceClass.v3 p = .ok (some (Device.id dev)) ∧
      Device.id dev = Json.str sid ∧
      Device.cls dev = DeviceClass.v3 ∧
      findNew all_devices_classes p = .ok (some DeviceClass.v3) ∧
      DeviceClass.construct DeviceClass.v3 p = .ok dev ∧
      Device.full_id dev = .ok k ∧
      Device.receive dev p true = .ok dev' ∧
      k = DeviceClass.v3.name ++ "_" ++ sid := by
  unfold payloadRestoreId at h
  cases hn : findNew all_devices_classes p with
  | error e => rw [hn] at h; exact absurd h (by simp)
  | ok o =>
    rw [hn] at h
    cases o with
    | none => exact absurd h (by simp)
    | some kc =>
      have hkc := findNew_v3_inv _ _ hn
      subst hkc
      dsimp only at h
      cases hc : DeviceClass.construct DeviceClass.v3 p with
      | error e => rw [hc] at h; exact absurd h (by simp)
      | ok dev =>
        rw [hc] at h
        dsimp only at h
        cases hf : Device.full_id dev with
        | error e => rw [hf] at h; exact absurd h (by simp)
        | ok fid =>
          rw [hf] at h
          dsimp only at h
          cases hr : Device.receive dev p true with
          | error e => rw [hr] at h; exact absurd h (by simp)
          | ok dev' =>
            rw [hr] at h
            simp only [Except.ok.injEq] at h
            subst h
            obtain ⟨hmk, hcls⟩ := DeviceClass.construct_inv _ _ _ hc
            obtain ⟨sid, hsid⟩ := MakerFabsSoilSensorV3_match_str p (Device.id dev) hmk
            refine ⟨dev, dev', sid, hmk, hsid, hcls, rfl, rfl, hf, hr, ?_⟩
            have : Device.full_id dev = .ok (DeviceClass.v3.name ++ "_" ++ sid) := by
              simp [Device.full_id, pyStrAdd, hcls, hsid]
            rw [this] at hf
            simp only [Except.ok.injEq] at hf
            exact hf.symm

/-- If every known device either fails to match or re-matches with a
different id, the first pass of `route_message` returns no device. -/
theorem findKnownSplit_none_of_miss (ds : List Device) (msg : String)
    (hall : ∀ d ∈ ds, ∃ m, DeviceClass.matchFn d.cls msg = .ok m ∧ matchHit m d = false) :
    findKnownSplit ds msg = .ok none := by
  induction ds with
  | nil => rfl
  | cons d rest ih =>
    obtain ⟨m, hm, hh⟩ := hall d (by simp)
    have hrest := ih (fun x hx => hall x (by simp [hx]))
    unfold findKnownSplit
    rw [hm]
    simp [hh, hrest]

/-- One replay step: routing a consistent snapshot entry with
`restore_only=True` appends exactly one recreated device (whose
`full_id` is the entry's key) and leaves `recent_messages` equal to the
snapshot. -/
theorem route_restore_step (snap : List (String × String)) (devs : List Device)
    (done : List String) (k p : String)
    (hmem : (k, p) ∈ snap) (hnd : (snap.map Prod.fst).Nodup)
    (hforall : List.Forall₂ devKey devs done) (hknotdone : k ∉ done)
    (hpr : payloadRestoreId p = .ok k) :
    ∃ dev', route_message ⟨devs, snap⟩ p true = .ok ⟨devs ++ [dev'], snap⟩ ∧ devKey dev' k := by
  obtain ⟨dev, dev', sid, hmk, hsid, hcls, hnew, hcons, hfid, hrecv, hkval⟩ :=
    payloadRestoreId_inv p k hpr
  have hsplitnone : findKnownSplit devs p = .ok none := by
    apply findKnownSplit_none_of_miss
    intro d hd
    obtain ⟨kd, hkd, hdkd⟩ := forall2_devKey_mem _ _ hforall d hd
    obtain ⟨hdcls, sd, hdid, hkdval⟩ := hdkd
    refine ⟨some (Device.id dev), ⟨?_, ?_⟩⟩
    · rw [hdcls]
      exact hmk
    unfold matchHit
    rw [hsid, hdid]
    dsimp only
    have hstr : pyJsonEq (Json.str sid) (Json.str sd) = (sid == sd) := rfl
    rw [hstr]
    have hne : sid ≠ sd := by
      intro he
      apply hknotdone
      rw [hkval, he, ← hkdval]
      exact hkd
    exact beq_eq_false_iff_ne.mpr hne
  have hstep : route_message ⟨devs, snap⟩ p true =
      .ok ⟨devs ++ [dev'], dictSet snap k p⟩ := by
    simp only [route_message, hsplitnone, hnew, hcons, hfid, hrecv]
  rw [dictSet_self snap k p hmem hnd] at hstep
  obtain ⟨hcls', hid'⟩ := Device.receive_cls_id _ _ _ _ hrecv
  refine ⟨dev', hstep, ?_, ⟨sid, ?_, hkval⟩⟩
  · rw [hcls', hcls]
  · rw [hid', hsid]

/-- Replay invariant: replaying the remaining keys of a consistent
snapshot extends the recreated devices exactly by those keys and keeps
`recent_messages` equal to the snapshot. -/
theorem replayKeys_go (snap : List (String × String))
    (hnd : (snap.map Prod.fst).Nodup) (hcons : snapConsistent snap)
    (pending done : List String) (devs : List Device)
    (hkeys : snap.map Prod.fst = done ++ pending)
    (hforall : List.Forall₂ devKey devs done) :
    ∃ devs', replayKeys pending ⟨devs, snap⟩ = .ok ⟨devs', snap⟩ ∧
      List.Forall₂ devKey devs' (done ++ pending) := by
  induction pending generalizing done devs with
  | nil =>
    exact ⟨devs, rfl, by simpa using hforall⟩
  | cons k rest ih =>
    have hkmem : k ∈ snap.map Prod.fst := by
      rw [hkeys]
      simp
    obtain ⟨p, hget, hmem⟩ := dictGet_mem snap k hkmem
    have hknotdone : k ∉ done := by
      intro hk
      have hnd' := hkeys ▸ hnd
      have hdisj := List.disjoint_of_nodup_append hnd'
      exact hdisj hk (by simp)
    obtain ⟨dev', hroute, hdk⟩ :=
      route_restore_step snap devs done k p hmem hnd hforall hknotdone
        (hcons (k, p) hmem)
    have hstep : replayKeys (k :: rest) ⟨devs, snap⟩ =
        replayKeys rest ⟨devs ++ [dev'], snap⟩ := by
      simp only [replayKeys, hget, hroute]
    rw [hstep]
    have hforall' : List.Forall₂ devKey (devs ++ [dev']) (done ++ [k]) :=
      List.rel_append hforall (List.Forall₂.cons hdk List.Forall₂.nil)
    have hkeys' : snap.map Prod.fst = (done ++ [k]) ++ rest := by
      rw [hkeys, List.append_assoc, List.singleton_append]
    obtain ⟨devs', h1, h2⟩ := ih (done ++ [k]) (devs ++ [dev']) hkeys' hforall'
    refine ⟨devs', h1, ?_⟩
    rw [List.append_assoc, List.singleton_append] at h2
    exact h2

/--
Claim C5.  Replaying a saved snapshot — installing the restored
`recent_messages` map on a fresh router and routing each stored payload
with `restore_only=True` in key order — succeeds, recreates exactly one
device per snapshot entry whose `full_id`s are exactly the snapshot
keys (the device fullIds before the restart), and leaves
`recent_messages` equal to the snapshot: a second save-then-load is the
identity.  A saved snapshot is characterised by `snapConsistent` (every
stored payload re-derives its own key, which is how `route_message`
wrote the entry) and by its keys being distinct (they are dict keys).
-/
theorem claim_C5_replay_roundtrip (snap : List (String × String))
    (hnd : (snap.map Prod.fst).Nodup) (hcons : snapConsistent snap) :
    ∃ r', replaySnapshot snap = .ok r' ∧
      r'.recent_messages = snap ∧
      deviceFullIds r'.known_devices = .ok (snap.map Prod.fst) := by
  obtain ⟨devs', h1, h2⟩ :=
    replayKeys_go snap hnd hcons (snap.map Prod.fst) [] [] rfl List.Forall₂.nil
  refine ⟨⟨devs', snap⟩, ?_, rfl, ?_⟩
  · unfold replaySnapshot
    rw [h1]
  · rw [List.nil_append] at h2
    exact deviceFullIds_of_forall2 _ _ h2

/-- Witness for C5: the singleton snapshot saved after routing the
Format A sample message replays to a router with exactly the device
`MakerFabsSoilSensorV3_7` and the same snapshot. -/
theorem claim_C5_witness :
    ((([("MakerFabsSoilSensorV3_7", msgFormatA)] : List (String × String)).map Prod.fst).Nodup ∧
      snapConsistent [("MakerFabsSoilSensorV3_7", msgFormatA)]) ∧
    ∃ r', replaySnapshot [("MakerFabsSoilSensorV3_7", msgFormatA)] = .ok r' ∧
      r'.recent_messages = [("MakerFabsSoilSensorV3_7", msgFormatA)] ∧
      deviceFullIds r'.known_devices =
        .ok ([("MakerFabsSoilSensorV3_7", msgFormatA)].map Prod.fst) :=
  ⟨⟨by simp, by intro kv hkv; simp only [List.mem_singleton] at hkv; subst hkv; rfl⟩,
    claim_C5_replay_roundtrip _ (by simp)
      (by intro kv hkv; simp only [List.mem_singleton] at hkv; subst hkv; rfl)⟩
